import Mathlib

/-!
Verification development for the Telecom_Assistant repository.

The decision core of the repository lives in `src/orchestration/graph.py`
(classifier, router, joke/multi/empty nodes, sanitizer, orchestrator) and
`src/agents/network_agents.py` (location/device extractor, status lookup
rendering, deterministic diagnostic pipeline `process_network_query`).

Strings are modelled as `List Char` (`Str`).  Python's `str.lower`,
`str.upper` and `str.strip` are modelled on the ASCII fragment (the
keyword tables and all fixed strings of the program are ASCII).  The
regular-expression substitutions of `_sanitize_response` and the search
patterns of `_extract_location_and_device` are translated operation by
operation, following Python `re` semantics: leftmost match, alternatives
tried left to right, greedy/non-greedy quantifiers as written, the
replacement text never rescanned, `^`/`$` anchored on the original string.

External collaborators (the CrewAI/LangChain/LlamaIndex/AutoGen calls, the
SQL engine, the fallback classification call and the joke call) are
parameters: a call that may raise is an `Except Str Str` value, a call the
source wraps so that it always returns text is a total function.

Recursions that consume more than one character per step take an explicit
fuel argument (the wrappers pass the string length, which bounds the number
of steps) so that every definition reduces in the kernel.
-/

abbrev Str := List Char

/-- Python `\s` / `str.strip()` whitespace, ASCII fragment. -/
def isPyWs (c : Char) : Bool :=
  c = ' ' || c = '\t' || c = '\n' || c = '\r' || c = '\x0b' || c = '\x0c'

/-- ASCII lower-casing of one character (Python `str.lower` on ASCII). -/
def lowerChar (c : Char) : Char :=
  if 'A' ≤ c ∧ c ≤ 'Z' then Char.ofNat (c.toNat + 32) else c

/-- ASCII upper-casing of one character (Python `str.upper` on ASCII). -/
def upperChar (c : Char) : Char :=
  if 'a' ≤ c ∧ c ≤ 'z' then Char.ofNat (c.toNat - 32) else c

def lowerStr (s : Str) : Str := s.map lowerChar

def upperStr (s : Str) : Str := s.map upperChar

/-- Python `str.strip()` (ASCII whitespace). -/
def pyStrip (s : Str) : Str :=
  ((s.dropWhile isPyWs).reverse.dropWhile isPyWs).reverse

/-- `startsWithB n h`: `n` is a prefix of `h` (Python `str.startswith`). -/
def startsWithB : Str → Str → Bool
  | [], _ => true
  | _ :: _, [] => false
  | a :: as, b :: bs => a = b && startsWithB as bs

/-- `substrB n h`: `n` occurs as a contiguous substring of `h`
(Python `n in h`). -/
def substrB (n : Str) : Str → Bool
  | [] => decide (n = [])
  | b :: bs => startsWithB n (b :: bs) || substrB n bs

/-- Python `sep.join(xs)`. -/
def joinSep (sep : Str) : List Str → Str
  | [] => []
  | [l] => l
  | l :: ls => l ++ sep ++ joinSep sep ls

/-- Split on newline characters: `n` newlines yield `n + 1` pieces. -/
def splitLines : Str → List Str
  | [] => [[]]
  | c :: cs =>
    if c = '\n' then [] :: splitLines cs
    else
      match splitLines cs with
      | [] => [[c]]
      | l :: ls => (c :: l) :: ls

/-- First index at which `pat` occurs in the string, if any. -/
def findSub (pat : Str) : Str → Option Nat
  | [] => if startsWithB pat [] then some 0 else none
  | c :: cs =>
    if startsWithB pat (c :: cs) then some 0
    else (findSub pat cs).map (· + 1)

/-! ## The sanitizer (`_sanitize_response`, graph.py lines 267-299)

Each pass is one `re.sub` of the source, in the source's order. -/

def ticks : Str := "```".data

/-- Pass 1: `re.sub(r"```.*?```", "", text, flags=re.S)` — non-greedy, the
dot spans newlines; a leftmost opening fence pairs with the nearest closing
fence; an unpaired fence matches nothing. -/
def removeFencesF : Nat → Str → Str
  | 0, s => s
  | f + 1, s =>
    match findSub ticks s with
    | none => s
    | some i =>
      let rest := s.drop (i + 3)
      match findSub ticks rest with
      | none => s
      | some j => s.take i ++ removeFencesF f (rest.drop (j + 3))

def removeFences (s : Str) : Str := removeFencesF s.length s

/-- Pass 2: `re.sub(r"<[^>]+>", "", text)` — at a `<`, one or more
non-`>` characters then `>`. -/
def removeTagsF : Nat → Str → Str
  | 0, s => s
  | _ + 1, [] => []
  | f + 1, c :: cs =>
    if c = '<' then
      let run := cs.takeWhile (fun d => ¬ d = '>')
      if run.length = 0 then c :: removeTagsF f cs
      else
        match (cs.drop run.length).head? with
        | some _ => removeTagsF f (cs.drop (run.length + 1))
        | none => c :: removeTagsF f cs
    else c :: removeTagsF f cs

def removeTags (s : Str) : Str := removeTagsF s.length s

/-- Pass 3: `re.sub(r"^#{1,6}\s*", "", text, flags=re.M)` — at a line
start, one to six `#` (greedy, at most six) and then all following
whitespace, newlines included.  The next position is a line start again
exactly when the last consumed character was a newline. -/
def stripHeadingsF : Nat → Bool → Str → Str
  | 0, _, s => s
  | _ + 1, _, [] => []
  | f + 1, atStart, c :: cs =>
    if atStart ∧ c = '#' then
      let hs := ((c :: cs).takeWhile (fun d => d = '#')).take 6
      let afterHash := (c :: cs).drop hs.length
      let ws := afterHash.takeWhile isPyWs
      let rest := afterHash.drop ws.length
      stripHeadingsF f (decide (ws.getLast? = some '\n')) rest
    else c :: stripHeadingsF f (decide (c = '\n')) cs

def stripHeadings (s : Str) : Str := stripHeadingsF s.length true s

/-- First index of the two-character needle `[a, a]`, the scanned prefix
containing no newline (the `.` of the pattern does not match `\n`). -/
def findDouble (a : Char) : Str → Option Nat
  | [] => none
  | c :: cs =>
    if c = a ∧ cs.head? = some a then some 0
    else if c = '\n' then none
    else (findDouble a cs).map (· + 1)

/-- Pass 4: `re.sub(r"(\*\*|__)(.*?)\1", r"\2", text)` — a `**` or `__`
opener, the shortest newline-free content, a closer equal to the opener;
the replacement (the content) is not rescanned. -/
def removeBoldF : Nat → Str → Str
  | 0, s => s
  | _ + 1, [] => []
  | f + 1, c :: cs =>
    if (c = '*' ∨ c = '_') ∧ cs.head? = some c then
      match findDouble c (cs.drop 1) with
      | some i => (cs.drop 1).take i ++ removeBoldF f ((cs.drop 1).drop (i + 2))
      | none => c :: removeBoldF f cs
    else c :: removeBoldF f cs

def removeBold (s : Str) : Str := removeBoldF s.length s

/-- First index of `a`, the scanned prefix containing no newline. -/
def findSingle (a : Char) : Str → Option Nat
  | [] => none
  | c :: cs =>
    if c = a then some 0
    else if c = '\n' then none
    else (findSingle a cs).map (· + 1)

/-- Pass 5: `re.sub(r"(\*|_)(.*?)\1", r"\2", text)`. -/
def removeItalicF : Nat → Str → Str
  | 0, s => s
  | _ + 1, [] => []
  | f + 1, c :: cs =>
    if c = '*' ∨ c = '_' then
      match findSingle c cs with
      | some i => cs.take i ++ removeItalicF f (cs.drop (i + 1))
      | none => c :: removeItalicF f cs
    else c :: removeItalicF f cs

def removeItalic (s : Str) : Str := removeItalicF s.length s

/-- Pass 6: `re.sub(r"\[([^\]]+)\]\([^\)]+\)", r"\1", text)` — keeps the
link text.  The character classes are bounded, so the match at a `[` is
determined: a nonempty run of non-`]`, then `](`, then a nonempty run of
non-`)`, then `)`. -/
def removeLinksF : Nat → Str → Str
  | 0, s => s
  | _ + 1, [] => []
  | f + 1, c :: cs =>
    if c = '[' then
      let n := (cs.takeWhile (fun d => ¬ d = ']')).length
      if 0 < n ∧ (cs.drop n).head? = some ']' ∧ (cs.drop (n + 1)).head? = some '(' then
        let r2 := cs.drop (n + 2)
        let m := (r2.takeWhile (fun d => ¬ d = ')')).length
        if 0 < m ∧ (r2.drop m).head? = some ')' then
          cs.take n ++ removeLinksF f (r2.drop (m + 1))
        else c :: removeLinksF f cs
      else c :: removeLinksF f cs
    else c :: removeLinksF f cs

def removeLinks (s : Str) : Str := removeLinksF s.length s

/-- Pass 7: `re.sub(r"\|", " | ", text)`. -/
def addPipeSpaces : Str → Str
  | [] => []
  | c :: cs =>
    if c = '|' then ' ' :: '|' :: ' ' :: addPipeSpaces cs
    else c :: addPipeSpaces cs

/-- A line matched by `^-{3,}$`: three or more hyphens and nothing else. -/
def hruleLine (l : Str) : Bool :=
  decide (3 ≤ l.length) && l.all (fun c => c = '-')

/-- Pass 8: `re.sub(r"^-{3,}$", "", text, flags=re.M)` — a full line of
three or more hyphens is emptied; the surrounding newlines stay. -/
def removeHRules (s : Str) : Str :=
  joinSep [ '\n' ] ((splitLines s).map (fun l => if hruleLine l then [] else l))

/-- Pass 9: `re.sub(r"\n{3,}", "\n\n", text)` — every maximal run of three
or more newlines becomes exactly two. -/
def collapseNLF : Nat → Str → Str
  | 0, s => s
  | _ + 1, [] => []
  | f + 1, c :: cs =>
    if c = '\n' ∧ cs.head? = some '\n' ∧ (cs.drop 1).head? = some '\n' then
      '\n' :: '\n' :: collapseNLF f (cs.dropWhile (fun d => d = '\n'))
    else c :: collapseNLF f cs

def collapseNL (s : Str) : Str := collapseNLF s.length s

/-- `_sanitize_response` (graph.py): the nine substitutions in source
order, then `str.strip()`.  (The `None` / non-`str` guard of the source is
outside the model: the argument is already a string.) -/
def sanitize_response (s : Str) : Str :=
  pyStrip (collapseNL (removeHRules (addPipeSpaces (removeLinks
    (removeItalic (removeBold (stripHeadings (removeTags (removeFences s)))))))))

example : sanitize_response ( "a|b".data) = ( "a | b".data) := by decide
example : sanitize_response ( "a | b".data) = ( "a  |  b".data) := by decide
example : sanitize_response ( "#######".data) = ( "#".data) := by decide
example : sanitize_response ( "[[a](b)](c)".data) = ( "[a](c)".data) := by decide
example : sanitize_response ( "### Hi\n\n\n\n**bold** [t](u)".data) = ( "Hi\n\nbold t".data) := by decide
example : sanitize_response ( "```code```x<b>y</b>".data) = ( "xy".data) := by decide
example : sanitize_response ( "# \n #".data) = ( "#".data) := by decide
example : sanitize_response ( "## # x".data) = ( "# x".data) := by decide
example : sanitize_response ( "***a***".data) = ( "a".data) := by decide
example : sanitize_response ( "**__**".data) = ( "".data) := by decide
example : sanitize_response ( "x``` a ``` b ```".data) = ( "x b ```".data) := by decide
example : sanitize_response ( "``<a>` x ```".data) = ( "``` x ```".data) := by decide
example : sanitize_response ( "<<a>".data) = ( "".data) := by decide
example : sanitize_response ( "<>".data) = ( "<>".data) := by decide
example : sanitize_response ( "#\n#b".data) = ( "b".data) := by decide
example : sanitize_response ( "-*--*-".data) = ( "".data) := by decide
example : sanitize_response ( "--\n----  \n---".data) = ( "--\n----".data) := by decide
example : sanitize_response ( "| | |".data) = ( "|   |   |".data) := by decide
example : sanitize_response ( "###### seven-# here".data) = ( "seven-# here".data) := by decide
example : sanitize_response ( "[a]()".data) = ( "[a]()".data) := by decide

/-! ## The classifier (`classify_query`, graph.py lines 20-89) -/

inductive Category where
  | EMPTY | JOKE | MULTI | BILLING | NETWORK | SERVICE | KNOWLEDGE | OTHER
deriving DecidableEq, Repr

def jokeKws : List Str := [ "joke".data, "funny".data, "tell me a joke".data, "make me laugh".data]

def billingKws : List Str :=
  [ "bill".data, "billing".data, "charge".data, "payment".data, "invoice".data, "due".data]

def networkKws : List Str :=
  [ "network".data, "signal".data, "internet".data, "outage".data, "connect".data, "slow".data]

def serviceKws : List Str :=
  [ "plan".data, "upgrade".data, "recommend".data, "service plan".data, "switch plan".data]

def knowledgeKws : List Str :=
  [ "how to".data, "how do i".data, "compatib".data, "setup".data, "guide".data, "what is".data]

/-- `any(w in q for w in kws)`. -/
def anyKw (kws : List Str) (q : Str) : Bool := kws.any (fun w => substrB w q)

/-- `present = sum([billing_kw, network_kw, service_kw, knowledge_kw])`. -/
def heurPresent (ql : Str) : Nat :=
  (cond (anyKw billingKws ql) 1 0) + (cond (anyKw networkKws ql) 1 0) +
  (cond (anyKw serviceKws ql) 1 0) + (cond (anyKw knowledgeKws ql) 1 0)

/-- Normalisation of the fallback classification call's raw text
(graph.py lines 74-86): strip, upper-case, then substring match on the
four handler category names, defaulting to `OTHER`. -/
def normalizeLLMCat (raw : Str) : Category :=
  let c := upperStr (pyStrip raw)
  if substrB ( "BILLING".data) c then .BILLING
  else if substrB ( "NETWORK".data) c then .NETWORK
  else if substrB ( "SERVICE".data) c then .SERVICE
  else if substrB ( "KNOWLEDGE".data) c then .KNOWLEDGE
  else .OTHER

/-- `classify_query`.  `llm` is the external classification call on the
trimmed query; it may raise (`Except.error`), and the source does not
catch that, so the error propagates. -/
def classify_query (llm : Str → Except Str Str) (q : Str) : Except Str Category :=
  let query := pyStrip q
  if query = [] then .ok .EMPTY
  else
    let ql := lowerStr query
    if anyKw jokeKws ql then .ok .JOKE
    else if 1 < heurPresent ql then .ok .MULTI
    else if anyKw billingKws ql then .ok .BILLING
    else if anyKw networkKws ql then .ok .NETWORK
    else if anyKw serviceKws ql then .ok .SERVICE
    else if anyKw knowledgeKws ql then .ok .KNOWLEDGE
    else (llm query).map normalizeLLMCat

example :
    classify_query (fun _ => .error ( "x".data)) ( " ".data) = .ok .EMPTY := rfl
example :
    classify_query (fun _ => .error ( "x".data)) ( "Tell me a JOKE about my bill".data)
      = .ok .JOKE := rfl
example :
    classify_query (fun _ => .error ( "x".data)) ( "my bill and the network are down".data)
      = .ok .MULTI := rfl
example :
    classify_query (fun _ => .error ( "x".data)) ( "my bill is high".data)
      = .ok .BILLING := rfl
example :
    classify_query (fun _ => .ok ( " knowledge\n".data)) ( "hello there".data)
      = .ok .KNOWLEDGE := rfl
example :
    classify_query (fun _ => .error ( "boom".data)) ( "hello there".data)
      = .error ( "boom".data) := rfl

/-! ## The extractor (`_extract_location_and_device`, network_agents.py lines 226-260)

The source tries three location patterns with `re.search` (leftmost match,
alternatives left to right, greedy quantifiers with backtracking) and one
device pattern, then strips filler words from the captured location.  The
backtracking of each pattern is resolved below into the first-success
order the Python engine uses. -/

def isAsciiAlpha (c : Char) : Bool := ('a' ≤ c ∧ c ≤ 'z') || ('A' ≤ c ∧ c ≤ 'Z')

def isAsciiDigit (c : Char) : Bool := '0' ≤ c ∧ c ≤ '9'

/-- The class `[A-Za-z0-9\s\-\.,]` of patterns 1 and 2. -/
def isClass1 (c : Char) : Bool :=
  isAsciiAlpha c || isAsciiDigit c || isPyWs c || c = '-' || c = '.' || c = ','

/-- The class `[A-Za-z\s\-]` of pattern 3. -/
def isClass3 (c : Char) : Bool := isAsciiAlpha c || isPyWs c || c = '-'

/-- `\w` for the `\b` boundaries of the filler-word substitution. -/
def isWordChar (c : Char) : Bool := isAsciiAlpha c || isAsciiDigit c || c = '_'

def wsCount (s : Str) : Nat := (s.takeWhile isPyWs).length

/-- Index of the last occurrence of `a`, if any. -/
def lastIdxOf (a : Char) : Str → Option Nat
  | [] => none
  | c :: cs =>
    match lastIdxOf a cs with
    | some j => some (j + 1)
    | none => if c = a then some 0 else none

/-- Consume a literal. -/
def dropLit (w : Str) (s : Str) : Option Str :=
  if startsWithB w s then some (s.drop w.length) else none

/-- Consume `\s+` (greedy; nothing after it can claim its characters,
since every following pattern element starts with a non-whitespace
possibility tried on the maximal run first — backtracking into the run is
resolved inside the suffix matchers below). -/
def dropWs1 (s : Str) : Option Str :=
  let k := wsCount s
  if k = 0 then none else some (s.drop k)

/-- The tail `\s+([A-Za-z0-9\s\-\.,]+)(?:[\.!?]|$)` of pattern 1 at a
fixed position, `rest` being the text after the matched prefix
alternative.  Resolved backtracking order: maximal `\s+` first, then the
greedy group from longest to shortest, then a shorter `\s+` (which only
ever adds a single leading whitespace character to the group).  Inside
the group's run only `.` can satisfy `[\.!?]`; at the end of the run `!`,
`?` or the end of the string can.  Returns the captured group. -/
def p1Suffix (rest : Str) : Option Str :=
  let W := wsCount rest
  if W = 0 then none
  else
    let afterWs := rest.drop W
    let T := (afterWs.takeWhile isClass1).length
    let tl := afterWs.drop T
    let endOK : Bool :=
      decide (tl = []) ||
        (match tl.head? with
         | some c => c = '!' ∨ c = '?'
         | none => false)
    if 0 < T then
      if endOK then some (afterWs.take T)
      else
        match lastIdxOf '.' (afterWs.take T) with
        | some j =>
          if 0 < j then some (afterWs.take j)
          else if 2 ≤ W then some ((rest.drop (W - 1)).take 1)
          else none
        | none => none
    else if endOK ∧ 2 ≤ W then some ((rest.drop (W - 1)).take 1)
    else none

/-- Pattern 1 at one position: the five prefix alternatives in source
order, each followed by the suffix matcher. -/
def p1At (s : Str) : Option Str :=
  ((dropLit ( "from".data) s).bind dropWs1 |>.bind (dropLit ( "my".data))
      |>.bind dropWs1 |>.bind (dropLit ( "home".data)) |>.bind dropWs1
      |>.bind (dropLit ( "in".data)) |>.bind p1Suffix).orElse (fun _ =>
  ((dropLit ( "from".data) s).bind dropWs1 |>.bind (dropLit ( "my".data))
      |>.bind dropWs1 |>.bind (dropLit ( "home".data)) |>.bind dropWs1
      |>.bind (dropLit ( "at".data)) |>.bind p1Suffix).orElse (fun _ =>
  ((dropLit ( "in".data) s).bind p1Suffix).orElse (fun _ =>
  ((dropLit ( "at".data) s).bind p1Suffix).orElse (fun _ =>
  (dropLit ( "near".data) s).bind p1Suffix))))

/-- `re.search` scan for pattern 1: leftmost position wins. -/
def searchP1 : Str → Option Str
  | [] => none
  | s@(_ :: cs) => (p1At s).orElse (fun _ => searchP1 cs)

/-- The tail `\s+([A-Za-z0-9\s\-\.,]+)$` of pattern 2.  The class
contains every whitespace character, so the greedy run can only end the
match by reaching the end of the string. -/
def p2Suffix (rest : Str) : Option Str :=
  let W := wsCount rest
  if W = 0 then none
  else
    let afterWs := rest.drop W
    let T := (afterWs.takeWhile isClass1).length
    if 0 < T ∧ T = afterWs.length then some afterWs
    else if afterWs = [] ∧ 2 ≤ W then some (rest.drop (W - 1))
    else none

def p2At (s : Str) : Option Str :=
  ((dropLit ( "in".data) s).bind p2Suffix).orElse (fun _ =>
  ((dropLit ( "at".data) s).bind p2Suffix).orElse (fun _ =>
  (dropLit ( "near".data) s).bind p2Suffix))

def searchP2 : Str → Option Str
  | [] => none
  | s@(_ :: cs) => (p2At s).orElse (fun _ => searchP2 cs)

/-- `\s*[A-Za-z]*$`: maximal whitespace run, then maximal letter run,
then the end of the string (or the position before a final newline). -/
def wsLettersEnd (t : Str) : Bool :=
  let t2 := t.drop (wsCount t)
  let t3 := t2.drop (t2.takeWhile isAsciiAlpha).length
  decide (t3 = []) || decide (t3 = [ '\n' ])

/-- `,?` then `\s*[A-Za-z]*$` at offset `p` of `rest` (the `,?` is
greedy: a comma is consumed when present). -/
def p3TailOK (rest : Str) (p : Nat) : Bool :=
  match (rest.drop p).head? with
  | some ',' => wsLettersEnd (rest.drop (p + 1)) || wsLettersEnd (rest.drop p)
  | _ => wsLettersEnd (rest.drop p)

/-- Group ends tried from offset `p` downwards (the Python engine's
first success over `\s+` length, group length and the tail, flattened:
larger group ends are tried first; for an end at or below the whitespace
run the group degenerates to a single whitespace character). -/
def p3Try (rest : Str) (W : Nat) : Nat → Option Str
  | 0 => none
  | p + 1 =>
    if p + 1 < 2 then none
    else if p3TailOK rest (p + 1) then
      some (((rest.drop (min W p)).take ((p + 1) - min W p)))
    else p3Try rest W p

/-- The tail `\s+([A-Za-z\s\-]+),?\s*[A-Za-z]*$` of pattern 3. -/
def p3Suffix (rest : Str) : Option Str :=
  let W := wsCount rest
  if W = 0 then none
  else
    let T3 := ((rest.drop W).takeWhile isClass3).length
    p3Try rest W (W + T3)

def p3At (s : Str) : Option Str :=
  ((dropLit ( "in".data) s).bind p3Suffix).orElse (fun _ =>
  ((dropLit ( "at".data) s).bind p3Suffix).orElse (fun _ =>
  (dropLit ( "near".data) s).bind p3Suffix))

def searchP3 : Str → Option Str
  | [] => none
  | s@(_ :: cs) => (p3At s).orElse (fun _ => searchP3 cs)

/-- `.strip('.,')`. -/
def stripDotComma (s : Str) : Str :=
  let p := fun (c : Char) => c = '.' || c = ','
  ((s.dropWhile p).reverse.dropWhile p).reverse

/-- One device alternative: literal, then `\s*`, then a run of `cls`. -/
def devLitWsRun (lit : Str) (cls : Char → Bool) (s : Str) : Option Nat :=
  if startsWithB lit s then
    let w := wsCount (s.drop lit.length)
    let r := ((s.drop (lit.length + w)).takeWhile cls).length
    some (lit.length + w + r)
  else none

/-- The device pattern
`iphone\s*[0-9x]*|ipad|samsung\s*galaxy\s*[a-z0-9]*|samsung|pixel\s*[0-9]*|oneplus\s*[0-9]*|xiaomi|mi[0-9]+|galaxy\s?[a-z0-9]*`
at one position (alternatives in source order, match length returned).
It is searched on the lower-cased query, so the literals are lower case. -/
def devAt (s : Str) : Option Nat :=
  (devLitWsRun ( "iphone".data) (fun c => isAsciiDigit c || c = 'x') s).orElse (fun _ =>
  ((dropLit ( "ipad".data) s).map (fun _ => 4)).orElse (fun _ =>
  ((dropLit ( "samsung".data) s).bind (fun r1 =>
      (dropWs1 r1).orElse (fun _ => some r1) |>.bind (fun r2 =>
        (devLitWsRun ( "galaxy".data) (fun c => ('a' ≤ c ∧ c ≤ 'z') || isAsciiDigit c) r2).map
          (fun k => s.length - r2.length + k)))).orElse (fun _ =>
  ((dropLit ( "samsung".data) s).map (fun _ => 7)).orElse (fun _ =>
  (devLitWsRun ( "pixel".data) isAsciiDigit s).orElse (fun _ =>
  (devLitWsRun ( "oneplus".data) isAsciiDigit s).orElse (fun _ =>
  ((dropLit ( "xiaomi".data) s).map (fun _ => 6)).orElse (fun _ =>
  ((dropLit ( "mi".data) s).bind (fun r =>
      let d := (r.takeWhile isAsciiDigit).length
      if 0 < d then some (2 + d) else none)).orElse (fun _ =>
  (dropLit ( "galaxy".data) s).map (fun r =>
      let w := if (r.head?.map isPyWs).getD false then 1 else 0
      let a := ((r.drop w).takeWhile (fun c => ('a' ≤ c ∧ c ≤ 'z') || isAsciiDigit c)).length
      6 + w + a)))))))))

def searchDev : Str → Option Str
  | [] => none
  | s@(_ :: cs) =>
    match devAt s with
    | some k => some (s.take k)
    | none => searchDev cs

def fillerWords : List Str :=
  [ "my".data, "home".data, "apartment".data, "house".data, "office".data, "room".data]

/-- `re.sub(r"\b(my|home|apartment|house|office|room)\b", "", location)`:
a filler word is removed when a word boundary stands on both sides; the
Boolean carries whether the previous character of the original string was
a word character. -/
def removeFillersF : Nat → Bool → Str → Str
  | 0, _, s => s
  | _ + 1, _, [] => []
  | f + 1, prevWord, c :: cs =>
    match fillerWords.find? (fun w => startsWithB w (c :: cs)) with
    | some w =>
      let after := (c :: cs).drop w.length
      let afterOK : Bool :=
        match after.head? with
        | some d => ! isWordChar d
        | none => true
      if prevWord = false ∧ afterOK = true then removeFillersF f true after
      else c :: removeFillersF f (isWordChar c) cs
    | none => c :: removeFillersF f (isWordChar c) cs

def removeFillers (s : Str) : Str := removeFillersF s.length false s

/-- `_extract_location_and_device`: the pair (location, device).  An
extracted location that strips to the empty string is kept as the empty
string (which Python treats as falsy downstream). -/
def extract_location_and_device (query : Str) : Option Str × Option Str :=
  let ql := lowerStr (pyStrip query)
  let rawLoc :=
    (searchP1 ql).orElse (fun _ => (searchP2 ql).orElse (fun _ => searchP3 ql))
  let location := rawLoc.map (fun g => stripDotComma (pyStrip g))
  let device := (searchDev ql).map pyStrip
  let location := location.map (fun l =>
    if l = [] then l else pyStrip (removeFillersF l.length false l))
  (location, device)

example : extract_location_and_device ( "No signal in Mumbai West".data)
    = (some ( "mumbai west".data), none) := rfl
example : extract_location_and_device ( "I can't make calls from my home in Mumbai West".data)
    = (some ( "mumbai west".data), none) := rfl
example : extract_location_and_device ( "no service in Bandra, Mumbai".data)
    = (some ( "bandra, mumbai".data), none) := rfl
example : extract_location_and_device
      ( "I have no internet in New York. My phone is an iPhone 14.".data)
    = (some ( "new york.  phone is an iphone 14".data), some ( "iphone 14".data)) := rfl
example : extract_location_and_device ( "internet down".data) = (none, none) := rfl
example : extract_location_and_device ( "slow internet at home".data)
    = (some ( "".data), none) := rfl
example : extract_location_and_device ( "network at my office is bad".data)
    = (some ( "is bad".data), none) := rfl
example : extract_location_and_device ( "outage near Andheri!".data)
    = (some ( "andheri".data), none) := rfl
example : extract_location_and_device ( "in  ".data) = (none, none) := rfl
example : extract_location_and_device ( "inat x".data) = (some ( "x".data), none) := rfl
example : extract_location_and_device ( "my samsung galaxy s22 has no service in Pune".data)
    = (some ( "pune".data), some ( "samsung galaxy s22".data)) := rfl
example : extract_location_and_device ( "data slow on my pixel 7 at Dadar".data)
    = (some ( "dadar".data), some ( "pixel 7".data)) := rfl
example : extract_location_and_device ( "issues in mumbai@west".data) = (none, none) := rfl
example : extract_location_and_device ( "can't connect from my home at Powai".data)
    = (some ( "powai".data), none) := rfl
example : extract_location_and_device ( "in .".data) = (some ( "".data), none) := rfl
example : extract_location_and_device ( "at ,x".data) = (some ( "x".data), none) := rfl
example : extract_location_and_device ( "near my house in the evening".data)
    = (some ( "in the evening".data), none) := rfl
example : extract_location_and_device ( "wifi bad in room 5".data)
    = (some ( "5".data), none) := rfl
example : extract_location_and_device ( "slow data in Delhi?".data)
    = (some ( "delhi".data), none) := rfl
example : extract_location_and_device ( "no network on mi11 in Indore".data)
    = (some ( "indore".data), some ( "mi11".data)) := rfl
example : extract_location_and_device ( "galaxy problems near Thane".data)
    = (some ( "thane".data), some ( "galaxy problems".data)) := rfl
example : extract_location_and_device ( "ipad wifi in Kochi".data)
    = (some ( "kochi".data), some ( "ipad".data)) := rfl

/-! ## The Diagnostic Engine (network_agents.py lines 172-329)

`check_network_status` renders the rows of the `network_status` table
whose `area` matches `LIKE '%location%'`; the SQL engine itself is a
collaborator, modelled as the seeded table (`Except.ok`, with SQLite's
ASCII-case-insensitive `LIKE` as the row filter) or a raised error
(`Except.error` with the exception's message).  `search_troubleshooting_docs`
catches every exception and always returns text, so it is a total
function parameter. -/

structure StatusRow where
  area : Str
  status : Str
  updated_at : Str
  details : Str
deriving DecidableEq

/-- SQLite `area LIKE '%location%'` (case-insensitive on ASCII). -/
def likeContains (area loc : Str) : Bool := substrB (lowerStr loc) (lowerStr area)

/-- `f"Area: {area} — Status: {status}. {details} (updated: {updated})"`. -/
def renderStatusRow (r : StatusRow) : Str :=
  "Area: ".data ++ r.area ++ " — Status: ".data ++ r.status ++ ". ".data ++
    r.details ++ " (updated: ".data ++ r.updated_at ++ ")".data

def dbMismatchMsg : Str :=
  ( "Unable to read network incident reports due to an internal database mismatch. " ++
    "This does not prevent checking other troubleshooting steps — you may be experiencing " ++
    "a local network issue (calls or data may be slow) in your area.").data

def dbErrorMsg : Str :=
  ( "Unable to check network incident reports right now due to an internal error. " ++
    "This may indicate temporary issues with our reporting system — however, you may " ++
    "still be experiencing a local network problem (service slow or intermittent).").data

/-- `check_network_status` (module level, lines 175-210). -/
def check_network_status (dbres : Except Str (List StatusRow)) (location : Str) : Str :=
  if location = [] then "No specific location provided to check for outages.".data
  else
    match dbres with
    | .ok table =>
      let rows := table.filter (fun r => likeContains r.area location)
      if rows = [] then
        "No reported network incidents found in '".data ++ location ++ "'.".data
      else joinSep ( "\n".data) (rows.map renderStatusRow)
    | .error e =>
      let msg := lowerStr e
      if substrB ( "no such column".data) msg || substrB ( "operationalerror".data) msg ||
          substrB ( "no such table".data) msg then dbMismatchMsg
      else dbErrorMsg

/-- The fixed fallback checklist of `process_network_query`
(lines 296-319), `"\n".join(checklist)`. -/
def checklistBlock : Str :=
  joinSep ( "\n".data)
    [ ( "I couldn't find a reported outage or a clear doc-based fix for your " ++
        "location/device. Let's try some quick troubleshooting and collect more information:").data,
      "\nQuick checks (do these first):".data,
      "1. Toggle Airplane Mode ON → wait 5s → OFF.".data,
      "2. Restart your phone.".data,
      ( "3. Check SIM: open Settings → Network & SIM and ensure SIM is enabled and " ++
        "not in airplane mode.").data,
      ( "4. Verify signal bars in the status bar and try moving to a window or " ++
        "outdoors briefly.").data,
      ( "5. If you see 'No Service' or 'Emergency Calls only', check if the SIM works " ++
        "in another phone.").data,
      "6. Check call barring / Do Not Disturb settings and that your account is active.".data,
      "\nDevice-specific steps:".data,
      ( "- For iPhone: Settings → Cellular → Cellular Data Options → Enable VoLTE/Voice " ++
        "& Data if relevant.").data,
      ( "- For Android: Check Mobile Network → Preferred Network Type → Ensure 4G/3G is " ++
        "selected; check APN settings if data fails.").data,
      "\nPlease provide the following so I can investigate further:".data,
      "- Exact location (e.g., 'Mumbai West' or full neighborhood/address).".data,
      "- Device model (e.g., iPhone 14, Samsung Galaxy S22).".data,
      "- What happens when you try to call? (error message, call drops, busy tone).".data,
      "- When did the issue start? Has it happened before?".data,
      "- Are other users in the same location affected?".data,
      "\nNext steps I can take for you:".data,
      "- Check network incident reports for the exact address once you provide it.".data,
      "- Run a deeper diagnostics flow (takes a bit longer) to analyze SIM/IMSI/account status.".data,
      "- If needed, escalate to field engineers for local signal checks.".data]

/-- Python truthiness of the optional extracted fields. -/
def truthy : Option Str → Bool
  | some l => ! decide (l = [])
  | none => false

/-- `process_network_query` (lines 263-329): the deterministic
diagnosis.  `dbres` models the status-table read, `docsF` models
`search_troubleshooting_docs` (total by construction in the source).
The final two `return helpful_response` branches of the source return
the same value, so they are one expression here. -/
def process_network_query (dbres : Except Str (List StatusRow)) (docsF : Str → Str)
    (query : Str) : Str :=
  let ld := extract_location_and_device query
  let location := ld.1
  let device := ld.2
  let status : Option Str :=
    if truthy location then some (check_network_status dbres (location.getD [])) else none
  let part1 : Str :=
    match status with
    | some st =>
      "Network status check for '".data ++ location.getD [] ++ "':\n".data ++ st
    | none => "No explicit location detected in your question; skipping outage lookup.".data
  let doc_query := if truthy device then device.getD [] ++ " ".data ++ query else query
  let docs_result := docsF doc_query
  let combined := joinSep ( "\n\n".data)
    [part1, "Troubleshooting suggestions:\n".data ++ docs_result]
  let docs_actionable : Bool :=
    (! decide (docs_result = [])) && (! startsWithB ( "Error".data) docs_result) &&
      decide (50 < docs_result.length)
  let outage_reported : Bool :=
    match status with
    | some st =>
      (! decide (st = [])) &&
        (! substrB ( "no reported network incidents".data) (lowerStr st))
    | none => false
  if outage_reported || docs_actionable then combined
  else combined ++ "\n\n".data ++ checklistBlock

/-- The seeded incident row of `tools/seed_and_test.py` (line 122). -/
def mumbaiRow : StatusRow :=
  { area := "Mumbai West".data, status := "Outage".data,
    updated_at := "2025-12-01".data,
    details := "Localized antenna maintenance affecting voice calls".data }

example :
    process_network_query (.ok [mumbaiRow]) (fun _ => "Error: Document index not available.".data)
        ( "No signal in Mumbai West".data)
      = ( "Network status check for 'mumbai west':\nArea: Mumbai West — Status: Outage. " ++
          "Localized antenna maintenance affecting voice calls (updated: 2025-12-01)\n\n" ++
          "Troubleshooting suggestions:\nError: Document index not available.").data := rfl

example :
    process_network_query (.ok []) (fun _ => "Error: Document index not available.".data)
        ( "my internet is down".data)
      = ( "No explicit location detected in your question; skipping outage lookup.\n\n" ++
          "Troubleshooting suggestions:\nError: Document index not available.\n\n").data
        ++ checklistBlock := rfl

/-! ## The orchestration nodes and graph (graph.py lines 92-375)

Collaborator calls that the source does not itself guard may raise and
are `Except` values; calls the source wraps in its own try/except are
handled exactly as the source handles them. -/

/-- The external collaborators of one request.  `billingH`, `serviceH`
and `knowledgeH` are the domain handlers (`process_billing_query`,
`process_recommendation_query`, `process_knowledge_query`), each of which
can raise.  `dbres`/`docsF` feed the Diagnostic Engine.  `llmClassify` is
the fallback classification call, `llmJoke` the joke call (both can
raise), and `randPick` models `random.choice` over the fallback jokes. -/
structure Collab where
  billingH : Str → Str → Except Str Str
  serviceH : Str → Except Str Str
  knowledgeH : Str → Except Str Str
  dbres : Except Str (List StatusRow)
  docsF : Str → Str
  llmClassify : Str → Except Str Str
  llmJoke : Str → Except Str Str
  randPick : List Str → Str

/-- `crew_ai_node`: catches the handler's exception and sanitizes either
the result or the error text; it never raises. -/
def crew_ai_node (c : Collab) (query customer_id : Str) : Str :=
  match c.billingH customer_id query with
  | .ok r => sanitize_response r
  | .error e => sanitize_response ( "Error in Billing Agent: ".data ++ e)

/-- `autogen_node`: `process_network_query` is deterministic and total
(its collaborator calls catch internally), so only the success branch of
the node's try/except is reachable. -/
def autogen_node (c : Collab) (query : Str) : Str :=
  sanitize_response (process_network_query c.dbres c.docsF query)

/-- `langchain_node`. -/
def langchain_node (c : Collab) (query : Str) : Str :=
  match c.serviceH query with
  | .ok r => sanitize_response r
  | .error e => sanitize_response ( "Error in Service Agent: ".data ++ e)

/-- `llamaindex_node`. -/
def llamaindex_node (c : Collab) (query : Str) : Str :=
  match c.knowledgeH query with
  | .ok r => sanitize_response r
  | .error e => sanitize_response ( "Error in Knowledge Agent: ".data ++ e)

def emptyInputMsg : Str :=
  ( "It looks like you didn't ask anything — please type your question about billing, " ++
    "network, service plans, or technical support.").data

def fallbackMsg : Str :=
  ( "I'm sorry, I couldn't understand your request. Please ask about billing, network " ++
    "issues, service plans, or technical support.").data

def fallbackJokes : List Str :=
  [ "Why don't secrets last in telecom? Because they always get leaked through the network! 😄".data,
    "Why did the mobile plan go to therapy? It had too many unresolved issues! 📱😂".data,
    "Why was the cell tower so calm? It had great reception! 📶🙂".data,
    "Why did the customer bring a ladder to the network test? To get better coverage! 😆".data]

def jokeTopics : List Str :=
  [ "plan".data, "billing".data, "network".data, "signal".data, "service".data,
    "phone".data, "data".data]

/-- The topic hint of `joke_node`: the first of the topic keywords
occurring in the trimmed lower-cased query, else the empty string. -/
def jokeTopicOf (q : Str) : Str :=
  (jokeTopics.find? (fun h => substrB h (lowerStr (pyStrip q)))).getD []

/-- `joke_node`: topic hint, the joke call (on failure or an empty joke,
the fallback jokes, preferring one that mentions the topic, otherwise
`random.choice`). -/
def joke_node (c : Collab) (q : Str) : Str :=
  let topic := jokeTopicOf q
  let fallback : Str :=
    if ¬ topic = [] then
      match fallbackJokes.find? (fun fj => substrB topic (lowerStr fj)) with
      | some fj => fj
      | none => c.randPick fallbackJokes
    else c.randPick fallbackJokes
  match c.llmJoke topic with
  | .ok content =>
    let joke := pyStrip content
    if joke = [] then fallback else joke
  | .error _ => fallback

/-- The test deciding whether the network branch's conversational result
looks like an internal error (multi_node, line 167). -/
def branchBad (t : Str) : Bool :=
  startsWithB ( "error".data) (lowerStr t) ||
    substrB ( "operationalerror".data) (lowerStr t) ||
    substrB ( "no such column".data) (lowerStr t)

/-- `r if ok else "Error: <e>"` — the per-branch isolation of
`multi_node`'s try/except blocks. -/
def errText : Except Str Str → Str
  | .ok r => r
  | .error e => "Error: ".data ++ e

/-- The billing branch of `multi_node` (lines 155-160). -/
def billingBranch (bN : Except Str Str) (ql : Str) : List (Str × Str) :=
  if anyKw billingKws ql then [( "Billing".data, errText bN)] else []

/-- The network branch (lines 162-177): a bad-looking conversational
result is replaced by the direct `process_network_query` fallback
(`diag`), whose own failure is reported with the fixed apology. -/
def networkBranch (nN diag : Except Str Str) (ql : Str) : List (Str × Str) :=
  if anyKw networkKws ql then
    [( "Network".data,
      match nN with
      | .ok t =>
        if branchBad t then
          match diag with
          | .ok d => d
          | .error e =>
            ( "Network agent encountered an error and could not provide a diagnosis: ".data ++ e)
        else t
      | .error e => "Error: ".data ++ e)]
  else []

/-- The service branch (lines 179-184). -/
def serviceBranch (sN : Except Str Str) (ql : Str) : List (Str × Str) :=
  if anyKw serviceKws ql then [( "Service".data, errText sN)] else []

/-- The knowledge branch (lines 186-191). -/
def knowledgeBranch (kN : Except Str Str) (ql : Str) : List (Str × Str) :=
  if anyKw knowledgeKws ql then [( "Knowledge".data, errText kN)] else []

/-- The ordered response list of `multi_node`. -/
def branchResponses (bN nN sN kN diag : Except Str Str) (q : Str) : List (Str × Str) :=
  let ql := lowerStr q
  billingBranch bN ql ++ networkBranch nN diag ql ++ serviceBranch sN ql ++
    knowledgeBranch kN ql

/-- `f"### {tag} Response\n{text}\n"` joined by `"\n---\n"`. -/
def renderSections (rs : List (Str × Str)) : Str :=
  joinSep ( "\n---\n".data)
    (rs.map (fun p => "### ".data ++ p.1 ++ " Response\n".data ++ p.2 ++ "\n".data))

/-- `multi_node` over opaque branch-node outcomes: the four node calls
(each wrapped in try/except), the direct Diagnostic-Engine fallback for
the network branch, and — when no branch matched — the defensive
re-classification (whose raised error the source does not catch). -/
def multi_node_gen (bN nN sN kN diag : Except Str Str)
    (reclass : Except Str Category) (q : Str) : Except Str Str :=
  let rs := branchResponses bN nN sN kN diag q
  if rs = [] then
    match reclass with
    | .error e => .error e
    | .ok cat => if cat = .OTHER then .ok fallbackMsg else .ok []
  else .ok (renderSections rs)

/-- `multi_node` of the pipeline: the concrete nodes cannot raise, and
the network fallback is the (total) Diagnostic Engine. -/
def multi_node (c : Collab) (q customer_id : Str) : Except Str Str :=
  multi_node_gen (.ok (crew_ai_node c q customer_id)) (.ok (autogen_node c q))
    (.ok (langchain_node c q)) (.ok (llamaindex_node c q))
    (.ok (process_network_query c.dbres c.docsF q))
    (classify_query c.llmClassify q) q

/-- The handler identifiers of `route_query`'s `Literal` return type. -/
inductive NodeId where
  | crew_ai_node | autogen_node | langchain_node | llamaindex_node
  | fallback_handler | joke_node | multi_node | empty_input_handler
deriving DecidableEq, Repr

/-- `route_query` (lines 303-321): category → node name. -/
def route_query : Category → NodeId
  | .EMPTY => .empty_input_handler
  | .JOKE => .joke_node
  | .MULTI => .multi_node
  | .BILLING => .crew_ai_node
  | .NETWORK => .autogen_node
  | .SERVICE => .langchain_node
  | .KNOWLEDGE => .llamaindex_node
  | .OTHER => .fallback_handler

/-- `run_orchestrator`: classify (which may raise through the uncaught
fallback classification call), route, run the selected node, return its
response. -/
def run_orchestrator (c : Collab) (query customer_id : Str) : Except Str Str :=
  match classify_query c.llmClassify query with
  | .error e => .error e
  | .ok cat =>
    match route_query cat with
    | .empty_input_handler => .ok emptyInputMsg
    | .joke_node => .ok (joke_node c query)
    | .multi_node => multi_node c query customer_id
    | .crew_ai_node => .ok (crew_ai_node c query customer_id)
    | .autogen_node => .ok (autogen_node c query)
    | .langchain_node => .ok (langchain_node c query)
    | .llamaindex_node => .ok (llamaindex_node c query)
    | .fallback_handler => .ok fallbackMsg

/-- A convenient all-total collaborator bundle for concrete runs. -/
def mkCollab (billing service knowledge : Str) (joke : Except Str Str) : Collab :=
  { billingH := fun _ _ => .ok billing
    serviceH := fun _ => .ok service
    knowledgeH := fun _ => .ok knowledge
    dbres := .ok [mumbaiRow]
    docsF := fun _ => "Error: Document index not available.".data
    llmClassify := fun _ => .ok ( "OTHER".data)
    llmJoke := fun _ => joke
    randPick := fun l => l.headD [] }

example :
    run_orchestrator (mkCollab ( "B".data) ( "S".data) ( "K".data) (.ok ( "a|b".data)))
        ( "".data) ( "CUST001".data) = .ok emptyInputMsg := rfl

example :
    run_orchestrator (mkCollab ( "B".data) ( "S".data) ( "K".data) (.ok ( "a|b".data)))
        ( "Tell me a joke".data) ( "CUST001".data) = .ok ( "a|b".data) := rfl

example :
    multi_node_gen (.ok ( "B".data)) (.ok ( "N".data)) (.ok ( "S".data)) (.ok ( "K".data))
        (.ok ( "D".data)) (.ok .OTHER)
        ( "I need help with both my bill and network issues".data)
      = .ok ( "### Billing Response\nB\n\n---\n### Network Response\nN\n".data) := rfl

example :
    run_orchestrator
        { mkCollab ( "".data) ( "S".data) ( "K".data) (.ok ( "j".data)) with
            billingH := fun _ _ => .ok [] }
        ( "my bill".data) ( "CUST001".data) = .ok [] := rfl

/-! ## Substring toolkit -/

theorem startsWithB_exists {n h : Str} (hs : startsWithB n h = true) :
    ∃ r, h = n ++ r := by
  induction n generalizing h with
  | nil => exact ⟨h, rfl⟩
  | cons a as ih =>
    cases h with
    | nil => simp [startsWithB] at hs
    | cons b bs =>
      simp only [startsWithB, Bool.and_eq_true, decide_eq_true_eq] at hs
      obtain ⟨r, hr⟩ := ih hs.2
      exact ⟨r, by simp [hs.1, hr]⟩

theorem startsWithB_intro (n r : Str) : startsWithB n (n ++ r) = true := by
  induction n with
  | nil => simp [startsWithB]
  | cons a as ih => simp [startsWithB, ih]

theorem substrB_exists {n h : Str} (hs : substrB n h = true) :
    ∃ p r, h = p ++ n ++ r := by
  induction h with
  | nil =>
    simp only [substrB, decide_eq_true_eq] at hs
    exact ⟨[], [], by simp [hs]⟩
  | cons b bs ih =>
    simp only [substrB, Bool.or_eq_true] at hs
    rcases hs with hs | hs
    · obtain ⟨r, hr⟩ := startsWithB_exists hs
      exact ⟨[], r, by simp [hr]⟩
    · obtain ⟨p, r, hr⟩ := ih hs
      exact ⟨b :: p, r, by simp [hr]⟩

theorem substrB_intro (n p r : Str) : substrB n (p ++ n ++ r) = true := by
  induction p with
  | nil =>
    cases n with
    | nil => cases r <;> simp [substrB, startsWithB]
    | cons a as =>
      have h := startsWithB_intro (a :: as) r
      simp only [List.nil_append, List.cons_append, substrB, Bool.or_eq_true]
      exact Or.inl (by simpa using h)
  | cons c cs ih =>
    simp only [List.cons_append, substrB, Bool.or_eq_true]
    exact Or.inr ih

theorem substrB_of_parts {n h : Str} (p r : Str) (hh : h = p ++ n ++ r) :
    substrB n h = true := hh ▸ substrB_intro n p r

theorem substrB_mono {n h p r : Str} (hs : substrB n h = true) :
    substrB n (p ++ h ++ r) = true := by
  obtain ⟨a, b, hab⟩ := substrB_exists hs
  exact substrB_of_parts (p ++ a) (b ++ r) (by simp [hab])

theorem substrB_map {n h : Str} (f : Char → Char) (hs : substrB n h = true) :
    substrB (n.map f) (h.map f) = true := by
  obtain ⟨a, b, hab⟩ := substrB_exists hs
  exact substrB_of_parts (a.map f) (b.map f) (by simp [hab])

theorem substrB_trans {a b c : Str} (h1 : substrB a b = true) (h2 : substrB b c = true) :
    substrB a c = true := by
  obtain ⟨p, r, hpr⟩ := substrB_exists h1
  obtain ⟨u, v, huv⟩ := substrB_exists h2
  exact substrB_of_parts (u ++ p) (r ++ v) (by simp [huv, hpr])

theorem substrB_cons_false {n : Str} {c : Char} {cs : Str}
    (h : substrB n (c :: cs) = false) : substrB n cs = false := by
  simp only [substrB, Bool.or_eq_false_iff] at h
  exact h.2

/-- `pyStrip s` is a contiguous substring of `s`. -/
theorem pyStrip_decomp (s : Str) : ∃ p r, s = p ++ pyStrip s ++ r := by
  refine ⟨s.takeWhile isPyWs, ((s.dropWhile isPyWs).reverse.takeWhile isPyWs).reverse, ?_⟩
  have h2 := List.takeWhile_append_dropWhile isPyWs (s.dropWhile isPyWs).reverse
  have h3 : s.dropWhile isPyWs
      = ((s.dropWhile isPyWs).reverse.dropWhile isPyWs).reverse
        ++ ((s.dropWhile isPyWs).reverse.takeWhile isPyWs).reverse := by
    conv_lhs => rw [← List.reverse_reverse (List.dropWhile isPyWs s), ← h2]
    rw [List.reverse_append]
  conv_lhs => rw [← List.takeWhile_append_dropWhile isPyWs s]
  rw [h3]
  simp [pyStrip, List.append_assoc]

/-- A keyword that matches the trimmed lower-cased query matches the
raw lower-cased query. -/
theorem anyKw_of_strip {kws : List Str} {q : Str}
    (h : anyKw kws (lowerStr (pyStrip q)) = true) : anyKw kws (lowerStr q) = true := by
  simp only [anyKw, List.any_eq_true] at h ⊢
  obtain ⟨w, hw, hsub⟩ := h
  refine ⟨w, hw, ?_⟩
  obtain ⟨p, r, hpr⟩ := pyStrip_decomp q
  have hq : lowerStr q = lowerStr p ++ lowerStr (pyStrip q) ++ lowerStr r := by
    conv_lhs => rw [hpr]
    simp [lowerStr]
  rw [hq]
  exact substrB_mono hsub

/-! ## Classifier lemmas -/

theorem heurPresent_nil : heurPresent [] = 0 := by decide

theorem normalizeLLMCat_ne_MULTI (r : Str) : normalizeLLMCat r ≠ .MULTI := by
  simp only [normalizeLLMCat]
  split_ifs <;> simp

/-- If the heuristic count is positive the trimmed query is nonempty. -/
theorem strip_ne_nil_of_present {q : Str} (h : 1 ≤ heurPresent (lowerStr (pyStrip q))) :
    ¬ pyStrip q = [] := by
  intro hq
  rw [hq] at h
  simp only [lowerStr, List.map_nil, heurPresent_nil] at h
  omega

/-- Inversion: only the heuristic multi-intent branch produces `MULTI`. -/
theorem classify_MULTI_inv {llm : Str → Except Str Str} {q : Str}
    (h : classify_query llm q = .ok .MULTI) :
    1 < heurPresent (lowerStr (pyStrip q)) := by
  by_cases h2 : 1 < heurPresent (lowerStr (pyStrip q))
  · exact h2
  exfalso
  unfold classify_query at h
  by_cases h0 : pyStrip q = []
  · simp [h0] at h
  cases h1 : anyKw jokeKws (lowerStr (pyStrip q)) with
  | true => simp [h0, h1] at h
  | false =>
  cases h3 : anyKw billingKws (lowerStr (pyStrip q)) with
  | true => simp [h0, h1, h2, h3] at h
  | false =>
  cases h4 : anyKw networkKws (lowerStr (pyStrip q)) with
  | true => simp [h0, h1, h2, h3, h4] at h
  | false =>
  cases h5 : anyKw serviceKws (lowerStr (pyStrip q)) with
  | true => simp [h0, h1, h2, h3, h4, h5] at h
  | false =>
  cases h6 : anyKw knowledgeKws (lowerStr (pyStrip q)) with
  | true => simp [h0, h1, h2, h3, h4, h5, h6] at h
  | false =>
  cases hl : llm (pyStrip q) with
  | ok r =>
    simp [h0, h1, h2, h3, h4, h5, h6, hl, Except.map] at h
    exact normalizeLLMCat_ne_MULTI r h
  | error e =>
    simp [h0, h1, h2, h3, h4, h5, h6, hl, Except.map] at h

/-- At least one keyword group matched whenever the count is positive. -/
theorem present_pos_disj {ql : Str} (h : 1 ≤ heurPresent ql) :
    anyKw billingKws ql = true ∨ anyKw networkKws ql = true ∨
      anyKw serviceKws ql = true ∨ anyKw knowledgeKws ql = true := by
  by_contra hc
  push_neg at hc
  obtain ⟨h1, h2, h3, h4⟩ := hc
  simp only [Bool.not_eq_true] at h1 h2 h3 h4
  simp [heurPresent, h1, h2, h3, h4] at h

/-! ## Aggregator lemmas -/

theorem joinSep_cons (sep x : Str) (xs : List Str) :
    ∃ t, joinSep sep (x :: xs) = x ++ t := by
  cases xs with
  | nil => exact ⟨[], by simp [joinSep]⟩
  | cons y ys => exact ⟨sep ++ joinSep sep (y :: ys), by simp [joinSep]⟩

theorem renderSections_ne_nil {rs : List (Str × Str)} (h : ¬ rs = []) :
    ¬ renderSections rs = [] := by
  cases rs with
  | nil => exact absurd rfl h
  | cons r rest =>
    simp only [renderSections, List.map_cons]
    obtain ⟨t, ht⟩ := joinSep_cons ( "\n---\n".data)
      ( "### ".data ++ r.1 ++ " Response\n".data ++ r.2 ++ "\n".data)
      (rest.map (fun p => "### ".data ++ p.1 ++ " Response\n".data ++ p.2 ++ "\n".data))
    rw [ht]
    intro hx
    have hlen := congrArg List.length hx
    have h4 : ( "### ".data : Str).length = 4 := by decide
    simp only [List.length_append, h4, List.length_nil] at hlen
    omega

/-- The branch keyword tests of `multi_node` reuse the classifier's
keyword groups on the (untrimmed) lower-cased query, so a `MULTI`
classification guarantees at least one branch. -/
theorem branchResponses_ne_nil {llm : Str → Except Str Str} {q : Str}
    (h : classify_query llm q = .ok .MULTI)
    (bN nN sN kN diag : Except Str Str) :
    ¬ branchResponses bN nN sN kN diag q = [] := by
  have hp := classify_MULTI_inv h
  have hd := @present_pos_disj (lowerStr (pyStrip q)) (by omega)
  intro hnil
  rcases hd with hd | hd | hd | hd
  · simp [branchResponses, billingBranch, anyKw_of_strip hd] at hnil
  · simp [branchResponses, networkBranch, anyKw_of_strip hd] at hnil
  · simp [branchResponses, serviceBranch, anyKw_of_strip hd] at hnil
  · simp [branchResponses, knowledgeBranch, anyKw_of_strip hd] at hnil

/-! ## Claim theorems -/

/-- C1: the classifier's ordered heuristic cascade decides
first-match-wins: a trimmed-empty query yields `EMPTY`; otherwise, with
no joke keyword present, at least two matching keyword groups yield
`MULTI`, and exactly one matching group yields that group's category. -/
theorem classifier_cascade_first_match (llm : Str → Except Str Str) (q : Str) :
    (pyStrip q = [] → classify_query llm q = .ok Category.EMPTY) ∧
    (anyKw jokeKws (lowerStr (pyStrip q)) = false →
      ((2 ≤ heurPresent (lowerStr (pyStrip q)) →
          classify_query llm q = .ok Category.MULTI) ∧
       (heurPresent (lowerStr (pyStrip q)) = 1 →
          (anyKw billingKws (lowerStr (pyStrip q)) = true →
            classify_query llm q = .ok Category.BILLING) ∧
          (anyKw networkKws (lowerStr (pyStrip q)) = true →
            classify_query llm q = .ok Category.NETWORK) ∧
          (anyKw serviceKws (lowerStr (pyStrip q)) = true →
            classify_query llm q = .ok Category.SERVICE) ∧
          (anyKw knowledgeKws (lowerStr (pyStrip q)) = true →
            classify_query llm q = .ok Category.KNOWLEDGE)))) := by
  refine ⟨fun h0 => by simp [classify_query, h0], fun hj => ⟨fun hp => ?_, fun hp1 => ?_⟩⟩
  · have h0 := @strip_ne_nil_of_present q (by omega)
    have hm : 1 < heurPresent (lowerStr (pyStrip q)) := by omega
    simp [classify_query, h0, hj, hm]
  · have h0 := @strip_ne_nil_of_present q (by omega)
    have hm : ¬ 1 < heurPresent (lowerStr (pyStrip q)) := by omega
    refine ⟨fun hb => by simp [classify_query, h0, hj, hm, hb], fun hn => ?_, fun hs => ?_,
      fun hk => ?_⟩
    · have hb : anyKw billingKws (lowerStr (pyStrip q)) = false := by
        cases hcb : anyKw billingKws (lowerStr (pyStrip q))
        · rfl
        · exfalso; simp [heurPresent, hcb, hn] at hp1 <;> omega
      simp [classify_query, h0, hj, hm, hb, hn]
    · have hb : anyKw billingKws (lowerStr (pyStrip q)) = false := by
        cases hcb : anyKw billingKws (lowerStr (pyStrip q))
        · rfl
        · exfalso; simp [heurPresent, hcb, hs] at hp1 <;> omega
      have hn : anyKw networkKws (lowerStr (pyStrip q)) = false := by
        cases hcn : anyKw networkKws (lowerStr (pyStrip q))
        · rfl
        · exfalso; simp [heurPresent, hcn, hs] at hp1 <;> omega
      simp [classify_query, h0, hj, hm, hb, hn, hs]
    · have hb : anyKw billingKws (lowerStr (pyStrip q)) = false := by
        cases hcb : anyKw billingKws (lowerStr (pyStrip q))
        · rfl
        · exfalso; simp [heurPresent, hcb, hk] at hp1 <;> omega
      have hn : anyKw networkKws (lowerStr (pyStrip q)) = false := by
        cases hcn : anyKw networkKws (lowerStr (pyStrip q))
        · rfl
        · exfalso; simp [heurPresent, hcn, hk] at hp1 <;> omega
      have hs : anyKw serviceKws (lowerStr (pyStrip q)) = false := by
        cases hcs : anyKw serviceKws (lowerStr (pyStrip q))
        · rfl
        · exfalso; simp [heurPresent, hcs, hk] at hp1 <;> omega
      simp [classify_query, h0, hj, hm, hb, hn, hs, hk]

/-- Witness for C1 at concrete queries. -/
theorem classifier_cascade_first_match_witness :
    classify_query (fun _ => .ok ( "OTHER".data)) ( " ".data) = .ok Category.EMPTY ∧
    classify_query (fun _ => .ok ( "OTHER".data)) ( "my bill and the network are down".data)
      = .ok Category.MULTI ∧
    classify_query (fun _ => .ok ( "OTHER".data)) ( "my bill is high".data)
      = .ok Category.BILLING := by
  refine ⟨(classifier_cascade_first_match (fun _ => .ok ( "OTHER".data)) _).1 (by decide),
    ((classifier_cascade_first_match (fun _ => .ok ( "OTHER".data)) _).2 (by decide)).1
      (by decide),
    ((((classifier_cascade_first_match (fun _ => .ok ( "OTHER".data)) _).2 (by decide)).2
      (by decide)).1 (by decide))⟩

/-- C10: a query the classifier labels `MULTI` always matches at least
one of the aggregator's four branch keyword tests (the same keyword
groups, on the lower-cased query), so the defensive zero-branch
re-classification path — including its empty-string return — is
unreachable for queries routed by this classifier. -/
theorem multi_no_reclassification {llm : Str → Except Str Str} {q : Str}
    (h : classify_query llm q = .ok Category.MULTI) :
    (anyKw billingKws (lowerStr q) = true ∨ anyKw networkKws (lowerStr q) = true ∨
      anyKw serviceKws (lowerStr q) = true ∨ anyKw knowledgeKws (lowerStr q) = true) ∧
    ∀ bN nN sN kN diag r1 r2,
      ¬ branchResponses bN nN sN kN diag q = [] ∧
      multi_node_gen bN nN sN kN diag r1 q = multi_node_gen bN nN sN kN diag r2 q ∧
      ¬ multi_node_gen bN nN sN kN diag r1 q = .ok [] := by
  have hp := classify_MULTI_inv h
  have hd := @present_pos_disj (lowerStr (pyStrip q)) (by omega)
  constructor
  · rcases hd with hd | hd | hd | hd
    · exact Or.inl (anyKw_of_strip hd)
    · exact Or.inr (Or.inl (anyKw_of_strip hd))
    · exact Or.inr (Or.inr (Or.inl (anyKw_of_strip hd)))
    · exact Or.inr (Or.inr (Or.inr (anyKw_of_strip hd)))
  · intro bN nN sN kN diag r1 r2
    have hb := branchResponses_ne_nil h bN nN sN kN diag
    refine ⟨hb, by simp [multi_node_gen, hb], ?_⟩
    simp only [multi_node_gen, hb, if_false, if_neg hb]
    intro hx
    exact renderSections_ne_nil hb (by simpa using hx)

/-- Witness for C10 at a concrete multi-intent query. -/
theorem multi_no_reclassification_witness :
    classify_query (fun _ => .ok ( "OTHER".data)) ( "my bill and slow internet".data)
      = .ok Category.MULTI ∧
    ¬ branchResponses (.ok ( "B".data)) (.ok ( "N".data)) (.ok ( "S".data))
        (.ok ( "K".data)) (.ok ( "D".data)) ( "my bill and slow internet".data) = [] := by
  have h0 : classify_query (fun _ => .ok ( "OTHER".data))
      ( "my bill and slow internet".data) = .ok Category.MULTI := rfl
  exact ⟨h0, ((multi_no_reclassification h0).2 (.ok ( "B".data)) (.ok ( "N".data))
    (.ok ( "S".data)) (.ok ( "K".data)) (.ok ( "D".data)) (.ok .OTHER) (.ok .OTHER)).1⟩

/-- The ordered labels of the keyword groups matching the lower-cased
query — the spec's fixed Billing→Network→Service→Knowledge order. -/
def matchedLabels (ql : Str) : List Str :=
  (if anyKw billingKws ql then [ "Billing".data] else []) ++
  (if anyKw networkKws ql then [ "Network".data] else []) ++
  (if anyKw serviceKws ql then [ "Service".data] else []) ++
  (if anyKw knowledgeKws ql then [ "Knowledge".data] else [])

/-- C4: the aggregator emits exactly one labeled section per matching
keyword group, in the fixed order, and none for a group that did not
match; for the query "I need help with both my bill and network issues"
the output has exactly the Billing and Network sections in that order. -/
theorem aggregator_matched_sections (bN nN sN kN diag : Except Str Str)
    (reclass : Except Str Category) (q : Str) :
    ((branchResponses bN nN sN kN diag q).map Prod.fst = matchedLabels (lowerStr q) ∧
     (¬ matchedLabels (lowerStr q) = [] →
        multi_node_gen bN nN sN kN diag reclass q
          = .ok (renderSections (branchResponses bN nN sN kN diag q)))) ∧
    (multi_node_gen (.ok ( "B".data)) (.ok ( "N".data)) (.ok ( "S".data)) (.ok ( "K".data))
        (.ok ( "D".data)) (.ok Category.OTHER)
        ( "I need help with both my bill and network issues".data)
      = .ok ( "### Billing Response\nB\n\n---\n### Network Response\nN\n".data) ∧
     substrB ( "### Billing Response".data)
        ( "### Billing Response\nB\n\n---\n### Network Response\nN\n".data) = true ∧
     substrB ( "### Network Response".data)
        ( "### Billing Response\nB\n\n---\n### Network Response\nN\n".data) = true ∧
     substrB ( "### Service Response".data)
        ( "### Billing Response\nB\n\n---\n### Network Response\nN\n".data) = false ∧
     substrB ( "### Knowledge Response".data)
        ( "### Billing Response\nB\n\n---\n### Network Response\nN\n".data) = false) := by
  refine ⟨⟨?_, ?_⟩, rfl, by decide, by decide, by decide, by decide⟩
  · cases cb : anyKw billingKws (lowerStr q) <;> cases cn : anyKw networkKws (lowerStr q) <;>
      cases cs2 : anyKw serviceKws (lowerStr q) <;> cases ck : anyKw knowledgeKws (lowerStr q) <;>
      simp [branchResponses, billingBranch, networkBranch, serviceBranch, knowledgeBranch,
        matchedLabels, cb, cn, cs2, ck]
  · intro hml
    have hrs : ¬ branchResponses bN nN sN kN diag q = [] := by
      intro hx
      cases cb : anyKw billingKws (lowerStr q) <;> cases cn : anyKw networkKws (lowerStr q) <;>
        cases cs2 : anyKw serviceKws (lowerStr q) <;> cases ck : anyKw knowledgeKws (lowerStr q) <;>
        simp [branchResponses, billingBranch, networkBranch, serviceBranch, knowledgeBranch,
          cb, cn, cs2, ck] at hx <;>
        simp [matchedLabels, cb, cn, cs2, ck] at hml
    simp [multi_node_gen, hrs]

/-- Witness for C4 at concrete queries and handler outcomes. -/
theorem aggregator_matched_sections_witness :
    (branchResponses (.ok ( "B".data)) (.ok ( "N".data)) (.ok ( "S".data)) (.ok ( "K".data))
        (.ok ( "D".data)) ( "my bill and slow internet".data)).map Prod.fst
      = matchedLabels (lowerStr ( "my bill and slow internet".data)) ∧
    multi_node_gen (.ok ( "B".data)) (.ok ( "N".data)) (.ok ( "S".data)) (.ok ( "K".data))
        (.ok ( "D".data)) (.ok Category.OTHER) ( "my bill and slow internet".data)
      = .ok (renderSections (branchResponses (.ok ( "B".data)) (.ok ( "N".data))
          (.ok ( "S".data)) (.ok ( "K".data)) (.ok ( "D".data))
          ( "my bill and slow internet".data))) := by
  refine ⟨((aggregator_matched_sections (.ok ( "B".data)) (.ok ( "N".data)) (.ok ( "S".data))
    (.ok ( "K".data)) (.ok ( "D".data)) (.ok Category.OTHER)
    ( "my bill and slow internet".data)).1).1,
    ((aggregator_matched_sections (.ok ( "B".data)) (.ok ( "N".data)) (.ok ( "S".data))
    (.ok ( "K".data)) (.ok ( "D".data)) (.ok Category.OTHER)
    ( "my bill and slow internet".data)).1).2 (by decide)⟩

/-- C7: inside the multi-intent aggregator, an exception raised by one
branch's handler call is caught and becomes that branch's
`BranchResult` with text `"Error: <message>"`, and every other branch's
entry is computed exactly as before — no branch failure aborts the
others. -/
theorem multi_branch_isolation (e : Str) (bN nN sN kN diag : Except Str Str) (q : Str) :
    (anyKw billingKws (lowerStr q) = true →
      branchResponses (.error e) nN sN kN diag q
        = ( "Billing".data, "Error: ".data ++ e)
            :: (networkBranch nN diag (lowerStr q) ++ serviceBranch sN (lowerStr q)
              ++ knowledgeBranch kN (lowerStr q))) ∧
    (anyKw networkKws (lowerStr q) = true →
      branchResponses bN (.error e) sN kN diag q
        = billingBranch bN (lowerStr q)
            ++ (( "Network".data, "Error: ".data ++ e)
              :: (serviceBranch sN (lowerStr q) ++ knowledgeBranch kN (lowerStr q)))) ∧
    (anyKw serviceKws (lowerStr q) = true →
      branchResponses bN nN (.error e) kN diag q
        = billingBranch bN (lowerStr q) ++ networkBranch nN diag (lowerStr q)
            ++ (( "Service".data, "Error: ".data ++ e) :: knowledgeBranch kN (lowerStr q))) ∧
    (anyKw knowledgeKws (lowerStr q) = true →
      branchResponses bN nN sN (.error e) diag q
        = billingBranch bN (lowerStr q) ++ networkBranch nN diag (lowerStr q)
            ++ serviceBranch sN (lowerStr q) ++ [( "Knowledge".data, "Error: ".data ++ e)]) := by
  refine ⟨fun hb => ?_, fun hn => ?_, fun hs => ?_, fun hk => ?_⟩
  · simp [branchResponses, billingBranch, errText, hb]
  · simp [branchResponses, networkBranch, errText, hn, List.append_assoc]
  · simp [branchResponses, serviceBranch, errText, hs, List.append_assoc]
  · simp [branchResponses, knowledgeBranch, errText, hk, List.append_assoc]

/-- Witness for C7: a billing-branch failure and a knowledge-branch
failure at a concrete multi-intent query. -/
theorem multi_branch_isolation_witness :
    branchResponses (.error ( "boom".data)) (.ok ( "N".data)) (.ok ( "S".data))
        (.ok ( "K".data)) (.ok ( "D".data)) ( "my bill and slow internet".data)
      = ( "Billing".data, "Error: boom".data)
          :: (networkBranch (.ok ( "N".data)) (.ok ( "D".data))
                (lowerStr ( "my bill and slow internet".data))
            ++ serviceBranch (.ok ( "S".data)) (lowerStr ( "my bill and slow internet".data))
            ++ knowledgeBranch (.ok ( "K".data)) (lowerStr ( "my bill and slow internet".data))) := by
  have h := (multi_branch_isolation ( "boom".data) (.ok ( "B".data)) (.ok ( "N".data))
    (.ok ( "S".data)) (.ok ( "K".data)) (.ok ( "D".data))
    ( "my bill and slow internet".data)).1 (by decide)
  simpa using h

/-- C8: in the aggregator's network branch, a conversational result that
looks like an internal error (starts with "error" case-insensitively, or
mentions "operationalerror" / "no such column") is discarded and the
branch entry becomes the Diagnostic Engine's deterministic output
instead. -/
theorem network_branch_error_fallback {t : Str} (ht : branchBad t = true) (d : Str)
    (q : Str) (hq : anyKw networkKws (lowerStr q) = true) :
    networkBranch (.ok t) (.ok d) (lowerStr q) = [( "Network".data, d)] ∧
    ∀ bN sN kN, branchResponses bN (.ok t) sN kN (.ok d) q
      = billingBranch bN (lowerStr q)
          ++ (( "Network".data, d) :: (serviceBranch sN (lowerStr q)
            ++ knowledgeBranch kN (lowerStr q))) := by
  constructor
  · simp [networkBranch, hq, ht]
  · intro bN sN kN
    simp [branchResponses, networkBranch, hq, ht, List.append_assoc]

/-- Witness for C8 at a concrete schema-error string. -/
theorem network_branch_error_fallback_witness :
    networkBranch (.ok ( "OperationalError: no such column: area".data))
        (.ok ( "diagnosis".data)) (lowerStr ( "my internet is slow".data))
      = [( "Network".data, "diagnosis".data)] :=
  (network_branch_error_fallback (by decide) ( "diagnosis".data)
    ( "my internet is slow".data) (by decide)).1

/-- C5 (amended): the Sanitizer is the final stage on the four
single-category handler paths — their responses are sanitizer outputs —
but the joke path returns the joke collaborator's stripped text
verbatim, without sanitization. -/
theorem sanitizer_last_stage_amended (c : Collab) (q cid : Str) :
    (classify_query c.llmClassify q = .ok Category.BILLING →
      ∃ t, run_orchestrator c q cid = .ok (sanitize_response t)) ∧
    (classify_query c.llmClassify q = .ok Category.NETWORK →
      ∃ t, run_orchestrator c q cid = .ok (sanitize_response t)) ∧
    (classify_query c.llmClassify q = .ok Category.SERVICE →
      ∃ t, run_orchestrator c q cid = .ok (sanitize_response t)) ∧
    (classify_query c.llmClassify q = .ok Category.KNOWLEDGE →
      ∃ t, run_orchestrator c q cid = .ok (sanitize_response t)) ∧
    (∀ j, classify_query c.llmClassify q = .ok Category.JOKE →
      c.llmJoke (jokeTopicOf q) = .ok j → ¬ pyStrip j = [] →
      run_orchestrator c q cid = .ok (pyStrip j)) := by
  refine ⟨fun h => ?_, fun h => ?_, fun h => ?_, fun h => ?_, fun j h hj hne => ?_⟩
  · cases hb : c.billingH cid q with
    | ok r => exact ⟨r, by simp [run_orchestrator, h, route_query, crew_ai_node, hb]⟩
    | error e =>
      exact ⟨ "Error in Billing Agent: ".data ++ e,
        by simp [run_orchestrator, h, route_query, crew_ai_node, hb]⟩
  · exact ⟨process_network_query c.dbres c.docsF q,
      by simp [run_orchestrator, h, route_query, autogen_node]⟩
  · cases hb : c.serviceH q with
    | ok r => exact ⟨r, by simp [run_orchestrator, h, route_query, langchain_node, hb]⟩
    | error e =>
      exact ⟨ "Error in Service Agent: ".data ++ e,
        by simp [run_orchestrator, h, route_query, langchain_node, hb]⟩
  · cases hb : c.knowledgeH q with
    | ok r => exact ⟨r, by simp [run_orchestrator, h, route_query, llamaindex_node, hb]⟩
    | error e =>
      exact ⟨ "Error in Knowledge Agent: ".data ++ e,
        by simp [run_orchestrator, h, route_query, llamaindex_node, hb]⟩
  · simp [run_orchestrator, h, route_query, joke_node, hj, hne]

/-- Witness for C5's amended statement at a concrete billing query and a
concrete joke query. -/
theorem sanitizer_last_stage_amended_witness :
    (∃ t, run_orchestrator (mkCollab ( "B".data) ( "S".data) ( "K".data) (.ok ( "a|b".data)))
        ( "my bill is high".data) ( "CUST001".data) = .ok (sanitize_response t)) ∧
    run_orchestrator (mkCollab ( "B".data) ( "S".data) ( "K".data) (.ok ( "a|b".data)))
        ( "Tell me a joke".data) ( "CUST001".data) = .ok (pyStrip ( "a|b".data)) := by
  constructor
  · exact (sanitizer_last_stage_amended
      (mkCollab ( "B".data) ( "S".data) ( "K".data) (.ok ( "a|b".data)))
      ( "my bill is high".data) ( "CUST001".data)).1 rfl
  · exact (sanitizer_last_stage_amended
      (mkCollab ( "B".data) ( "S".data) ( "K".data) (.ok ( "a|b".data)))
      ( "Tell me a joke".data) ( "CUST001".data)).2.2.2.2 ( "a|b".data) rfl rfl (by decide)

/-- Counterexample to C5 as stated: the joke path returns the joke text
verbatim, so `process("Tell me a joke", cid)` can contain a markdown
table pipe. -/
theorem sanitizer_last_stage_counterexample :
    run_orchestrator (mkCollab ( "B".data) ( "S".data) ( "K".data) (.ok ( "a|b".data)))
        ( "Tell me a joke".data) ( "CUST001".data) = .ok ( "a|b".data) ∧
    substrB ( "|".data) ( "a|b".data) = true := ⟨rfl, by decide⟩

/-- C6 (amended): whenever the keyword heuristics decide the category
(trimmed-empty, a joke keyword, or at least one keyword group), the
public entry point returns text and never raises.  (The returned text
can still be empty or carry an error string when a handler misbehaves —
see the counterexample.) -/
theorem process_heuristic_total (c : Collab) (q cid : Str)
    (h : pyStrip q = [] ∨ anyKw jokeKws (lowerStr (pyStrip q)) = true ∨
      1 ≤ heurPresent (lowerStr (pyStrip q))) :
    ∃ t, run_orchestrator c q cid = .ok t := by
  by_cases h0 : pyStrip q = []
  · exact ⟨emptyInputMsg, by simp [run_orchestrator, classify_query, h0, route_query]⟩
  by_cases hj : anyKw jokeKws (lowerStr (pyStrip q)) = true
  · exact ⟨joke_node c q, by simp [run_orchestrator, classify_query, h0, hj, route_query]⟩
  have hp : 1 ≤ heurPresent (lowerStr (pyStrip q)) := by
    rcases h with h | h | h
    · exact absurd h h0
    · exact absurd h hj
    · exact h
  simp only [Bool.not_eq_true] at hj
  by_cases hm : 1 < heurPresent (lowerStr (pyStrip q))
  · have hcl : classify_query c.llmClassify q = .ok Category.MULTI := by
      simp [classify_query, h0, hj, hm]
    have hrs := branchResponses_ne_nil hcl (.ok (crew_ai_node c q cid))
      (.ok (autogen_node c q)) (.ok (langchain_node c q)) (.ok (llamaindex_node c q))
      (.ok (process_network_query c.dbres c.docsF q))
    exact ⟨renderSections (branchResponses (.ok (crew_ai_node c q cid))
        (.ok (autogen_node c q)) (.ok (langchain_node c q)) (.ok (llamaindex_node c q))
        (.ok (process_network_query c.dbres c.docsF q)) q),
      by simp [run_orchestrator, hcl, route_query, multi_node, multi_node_gen, hrs]⟩
  cases hb : anyKw billingKws (lowerStr (pyStrip q)) with
  | true =>
    exact ⟨crew_ai_node c q cid,
      by simp [run_orchestrator, classify_query, h0, hj, hm, hb, route_query]⟩
  | false =>
  cases hn : anyKw networkKws (lowerStr (pyStrip q)) with
  | true =>
    exact ⟨autogen_node c q,
      by simp [run_orchestrator, classify_query, h0, hj, hm, hb, hn, route_query]⟩
  | false =>
  cases hs : anyKw serviceKws (lowerStr (pyStrip q)) with
  | true =>
    exact ⟨langchain_node c q,
      by simp [run_orchestrator, classify_query, h0, hj, hm, hb, hn, hs, route_query]⟩
  | false =>
  cases hk : anyKw knowledgeKws (lowerStr (pyStrip q)) with
  | true =>
    exact ⟨llamaindex_node c q,
      by simp [run_orchestrator, classify_query, h0, hj, hm, hb, hn, hs, hk, route_query]⟩
  | false =>
    exfalso
    simp [heurPresent, hb, hn, hs, hk] at hp

/-- Witness for C6's amended statement at a concrete heuristic query. -/
theorem process_heuristic_total_witness :
    ∃ t, run_orchestrator (mkCollab ( "B".data) ( "S".data) ( "K".data) (.ok ( "j".data)))
        ( "my bill and slow internet".data) ( "CUST001".data) = .ok t :=
  process_heuristic_total (mkCollab ( "B".data) ( "S".data) ( "K".data) (.ok ( "j".data)))
    ( "my bill and slow internet".data) ( "CUST001".data) (Or.inr (Or.inr (by decide)))

/-- Counterexample to C6 as stated: a billing handler whose answer
sanitizes to nothing makes the pipeline return the empty response. -/
theorem process_empty_response_counterexample :
    run_orchestrator
        { mkCollab ( "".data) ( "S".data) ( "K".data) (.ok ( "j".data)) with
            billingH := fun _ _ => .ok [] }
        ( "my bill".data) ( "CUST001".data) = .ok [] := rfl

/-! ## Diagnostic Engine: specification-level view (spec §4.4) -/

/-- Spec §4.4 step 2: the status text the engine obtains — `none` when
no (truthy) location was extracted. -/
def diagStatusText (dbres : Except Str (List StatusRow)) (q : Str) : Option Str :=
  let location := (extract_location_and_device q).1
  if truthy location then some (check_network_status dbres (location.getD [])) else none

/-- Spec §4.4 step 3: the document query, device-prefixed when a device
was extracted. -/
def diagDocQuery (q : Str) : Str :=
  let device := (extract_location_and_device q).2
  if truthy device then device.getD [] ++ " ".data ++ q else q

/-- Spec §4.4 step 4: `outageReported` = status text obtained AND does
not contain the no-incident phrase (case-insensitively). -/
def outageReportedSpec (dbres : Except Str (List StatusRow)) (q : Str) : Bool :=
  match diagStatusText dbres q with
  | some st =>
    (! decide (st = [])) && (! substrB ( "no reported network incidents".data) (lowerStr st))
  | none => false

/-- Spec §4.4 step 4: `actionable` = docs text obtained AND does not
start with "Error" AND is longer than 50 characters. -/
def actionableSpec (docsF : Str → Str) (q : Str) : Bool :=
  let d := docsF (diagDocQuery q)
  (! decide (d = [])) && (! startsWithB ( "Error".data) d) && decide (50 < d.length)

/-- The labeled status block and docs block, separated by a blank line
(spec §4.4 step 5). -/
def diagCombined (dbres : Except Str (List StatusRow)) (docsF : Str → Str) (q : Str) : Str :=
  let location := (extract_location_and_device q).1
  let part1 :=
    if truthy location then
      "Network status check for '".data ++ location.getD [] ++ "':\n".data ++
        check_network_status dbres (location.getD [])
    else "No explicit location detected in your question; skipping outage lookup.".data
  joinSep ( "\n\n".data) [part1, "Troubleshooting suggestions:\n".data ++ docsF (diagDocQuery q)]

/-- The code path of `process_network_query` matches the spec's
decision: the checklist block is appended exactly when neither an outage
is reported nor the docs result is actionable. -/
theorem process_network_query_cases (dbres : Except Str (List StatusRow))
    (docsF : Str → Str) (q : Str) :
    process_network_query dbres docsF q =
      (if outageReportedSpec dbres q || actionableSpec docsF q then diagCombined dbres docsF q
       else diagCombined dbres docsF q ++ "\n\n".data ++ checklistBlock) := by
  unfold process_network_query diagCombined outageReportedSpec actionableSpec diagStatusText
    diagDocQuery
  cases ht : truthy (extract_location_and_device q).1 <;> simp [ht]

theorem append_ne_nil_left {a b : Str} (h : ¬ a = []) : ¬ a ++ b = [] := by
  simp [List.append_eq_nil, h]

/-- A member's substring is a substring of the joined list. -/
theorem substrB_joinSep {n sep x : Str} {l : List Str} (hx : x ∈ l)
    (hs : substrB n x = true) : substrB n (joinSep sep l) = true := by
  induction l with
  | nil => simp at hx
  | cons y ys ih =>
    rw [List.mem_cons] at hx
    rcases hx with rfl | hx
    · cases ys with
      | nil => simpa [joinSep] using hs
      | cons z zs =>
        obtain ⟨t, htt⟩ := joinSep_cons sep x (z :: zs)
        rw [htt]
        obtain ⟨p, r, hpr⟩ := substrB_exists hs
        exact substrB_of_parts p (r ++ t) (by simp [hpr])
    · cases ys with
      | nil => simp at hx
      | cons z zs =>
        have hr := ih hx
        show substrB n (y ++ sep ++ joinSep sep (z :: zs)) = true
        obtain ⟨p, r, hpr⟩ := substrB_exists hr
        exact substrB_of_parts (y ++ sep ++ p) r (by simp [hpr])

/-- C3: with an extracted location matching a seeded "Outage" row (and
the no-incident phrase absent from the rendered status), the Diagnostic
Engine's output contains "Status: Outage" and the generic checklist is
not appended; in general the checklist is appended exactly when neither
`outageReported` nor `actionable` holds. -/
theorem diagnostic_engine_outage (db : List StatusRow) (docsF : Str → Str) (q loc : Str)
    (hloc : (extract_location_and_device q).1 = some loc) (hne : ¬ loc = [])
    (hrow : ∃ r ∈ db, likeContains r.area loc = true ∧ r.status = ( "Outage".data))
    (hph : substrB ( "no reported network incidents".data)
        (lowerStr (check_network_status (.ok db) loc)) = false) :
    substrB ( "Status: Outage".data) (process_network_query (.ok db) docsF q) = true ∧
    process_network_query (.ok db) docsF q = diagCombined (.ok db) docsF q ∧
    ∀ (dbres2 : Except Str (List StatusRow)) (docsF2 : Str → Str) (q2 : Str),
      process_network_query dbres2 docsF2 q2 =
        (if outageReportedSpec dbres2 q2 || actionableSpec docsF2 q2 then
          diagCombined dbres2 docsF2 q2
         else diagCombined dbres2 docsF2 q2 ++ "\n\n".data ++ checklistBlock) := by
  have hrows : ¬ (db.filter (fun r => likeContains r.area loc)) = [] := by
    obtain ⟨r0, hr0, hlike, _⟩ := hrow
    exact List.ne_nil_of_mem (List.mem_filter.mpr ⟨hr0, hlike⟩)
  have hstval : check_network_status (.ok db) loc
      = joinSep ( "\n".data)
          ((db.filter (fun r => likeContains r.area loc)).map renderStatusRow) := by
    simp [check_network_status, hne, hrows]
  have hstne : ¬ check_network_status (.ok db) loc = [] := by
    rw [hstval]
    cases hc : db.filter (fun r => likeContains r.area loc) with
    | nil => exact absurd hc hrows
    | cons a l =>
      simp only [List.map_cons]
      obtain ⟨t, htt⟩ := joinSep_cons ( "\n".data) (renderStatusRow a) (l.map renderStatusRow)
      rw [htt]
      intro hx
      have hlen := congrArg List.length hx
      have h6 : ( "Area: ".data : Str).length = 6 := by decide
      simp only [renderStatusRow, List.length_append, h6, List.length_nil] at hlen
      omega
  have hst : diagStatusText (.ok db) q = some (check_network_status (.ok db) loc) := by
    simp [diagStatusText, hloc, truthy, hne]
  have houtage : outageReportedSpec (.ok db) q = true := by
    simp [outageReportedSpec, hst, hstne, hph]
  have heq : process_network_query (.ok db) docsF q = diagCombined (.ok db) docsF q := by
    rw [process_network_query_cases]
    simp [houtage]
  have hcomb : diagCombined (.ok db) docsF q
      = ( "Network status check for '".data ++ loc ++ "':\n".data)
          ++ check_network_status (.ok db) loc
          ++ ( "\n\n".data ++ ( "Troubleshooting suggestions:\n".data
            ++ docsF (diagDocQuery q))) := by
    simp [diagCombined, diagDocQuery, hloc, truthy, hne, joinSep, List.append_assoc]
  refine ⟨?_, heq, fun dbres2 docsF2 q2 => process_network_query_cases dbres2 docsF2 q2⟩
  have hin : substrB ( "Status: Outage".data) (check_network_status (.ok db) loc) = true := by
    rw [hstval]
    obtain ⟨r0, hr0, hlike, hstat⟩ := hrow
    refine substrB_joinSep
      (List.mem_map_of_mem renderStatusRow (List.mem_filter.mpr ⟨hr0, hlike⟩)) ?_
    refine substrB_of_parts ( "Area: ".data ++ r0.area ++ " — ".data)
      (". ".data ++ r0.details ++ " (updated: ".data ++ r0.updated_at ++ ")".data) ?_
    have e1 : ( " — Status: ".data : Str) = " — ".data ++ "Status: ".data := by decide
    have e2 : ( "Status: Outage".data : Str) = "Status: ".data ++ "Outage".data := by decide
    rw [renderStatusRow, hstat, e1, e2]
    simp [List.append_assoc]
  rw [heq, hcomb]
  exact substrB_mono hin

/-- Witness for C3 at the seeded "Mumbai West" outage row. -/
theorem diagnostic_engine_outage_witness :
    substrB ( "Status: Outage".data)
      (process_network_query (.ok [mumbaiRow])
        (fun _ => "Error: Document index not available.".data)
        ( "No signal in Mumbai West".data)) = true ∧
    process_network_query (.ok [mumbaiRow])
        (fun _ => "Error: Document index not available.".data)
        ( "No signal in Mumbai West".data)
      = diagCombined (.ok [mumbaiRow])
          (fun _ => "Error: Document index not available.".data)
          ( "No signal in Mumbai West".data) := by
  have h := diagnostic_engine_outage [mumbaiRow]
    (fun _ => "Error: Document index not available.".data)
    ( "No signal in Mumbai West".data) ( "mumbai west".data)
    (by decide) (by decide)
    ⟨mumbaiRow, by simp, by decide, by decide⟩
    (by decide)
  exact ⟨h.1, h.2.1⟩

/-! ## Sanitizer lemmas -/

/-- `"\n\n\n"`. -/
def nl3 : Str := [ '\n', '\n', '\n' ]

theorem dropWhile_head_false (p : Char → Bool) :
    ∀ (l : Str) (a : Char), (l.dropWhile p).head? = some a → p a = false := by
  intro l
  induction l with
  | nil => intro a h; simp [List.dropWhile] at h
  | cons x xs ih =>
    intro a h
    by_cases hx : p x = true
    · rw [List.dropWhile_cons, if_pos hx] at h
      exact ih a h
    · rw [List.dropWhile_cons, if_neg hx] at h
      simp only [List.head?_cons, Option.some.injEq] at h
      subst h
      simpa using hx

theorem dropWhile_length_le (p : Char → Bool) :
    ∀ l : Str, (l.dropWhile p).length ≤ l.length := by
  intro l
  induction l with
  | nil => simp [List.dropWhile]
  | cons x xs ih =>
    rw [List.dropWhile_cons]
    by_cases hx : p x = true
    · rw [if_pos hx]; exact Nat.le_succ_of_le ih
    · rw [if_neg hx]

/-- One-step unfolding of the collapse pass. -/
theorem collapseNLF_cons (g : Nat) (c : Char) (cs : Str) :
    collapseNLF (g + 1) (c :: cs)
      = if c = '\n' ∧ cs.head? = some '\n' ∧ (cs.drop 1).head? = some '\n'
        then '\n' :: '\n' :: collapseNLF g (cs.dropWhile (fun d => d = '\n'))
        else c :: collapseNLF g cs := rfl

theorem collapseNLF_head? : ∀ (f : Nat) (s : Str), (collapseNLF f s).head? = s.head? := by
  intro f
  cases f with
  | zero => intro s; rfl
  | succ g =>
    intro s
    cases s with
    | nil => rfl
    | cons c cs =>
      rw [collapseNLF_cons]
      split_ifs with hcond <;> simp_all

theorem nl3_cons_ne {c : Char} {M : Str} (hc : ¬ c = '\n') (hM : substrB nl3 M = false) :
    substrB nl3 (c :: M) = false := by
  have h1 : startsWithB nl3 (c :: M) = false := by
    show (decide ('\n' = c) && startsWithB [ '\n', '\n' ] M) = false
    rw [decide_eq_false (fun h => hc h.symm)]
    rfl
  show (startsWithB nl3 (c :: M) || substrB nl3 M) = false
  rw [h1, hM]
  rfl

theorem nl3_cons_nl {M : Str} (hM : substrB nl3 M = false) (hh : ¬ M.head? = some '\n') :
    substrB nl3 ('\n' :: M) = false := by
  have h1 : startsWithB nl3 ('\n' :: M) = false := by
    cases M with
    | nil => rfl
    | cons k ks =>
      have hk : ¬ ('\n' : Char) = k := fun h => hh (by rw [List.head?_cons, ← h])
      show (decide (('\n' : Char) = '\n')
        && (decide ('\n' = k) && startsWithB [ '\n' ] ks)) = false
      rw [decide_eq_false hk]
      simp
  show (startsWithB nl3 ('\n' :: M) || substrB nl3 M) = false
  rw [h1, hM]
  rfl

theorem nl3_cons2_nl {K : Str} (hK : substrB nl3 K = false) (hh : ¬ K.head? = some '\n') :
    substrB nl3 ('\n' :: '\n' :: K) = false := by
  have h2 := nl3_cons_nl hK hh
  have h1 : startsWithB nl3 ('\n' :: '\n' :: K) = false := by
    cases K with
    | nil => rfl
    | cons k ks =>
      have hk : ¬ ('\n' : Char) = k := fun h => hh (by rw [List.head?_cons, ← h])
      show (decide (('\n' : Char) = '\n') && (decide (('\n' : Char) = '\n')
        && (decide ('\n' = k) && startsWithB [] ks))) = false
      rw [decide_eq_false hk]
      simp
  show (startsWithB nl3 ('\n' :: '\n' :: K) || substrB nl3 ('\n' :: K)) = false
  rw [h1, h2]
  rfl

/-- The collapse pass leaves no three consecutive newlines. -/
theorem collapseNLF_no_triple :
    ∀ (f : Nat) (s : Str), s.length ≤ f → substrB nl3 (collapseNLF f s) = false := by
  intro f
  induction f using Nat.strong_induction_on with
  | _ f ih =>
    intro s hs
    cases f with
    | zero =>
      have : s = [] := List.length_eq_zero.mp (Nat.le_zero.mp hs)
      subst this
      rfl
    | succ g =>
      cases s with
      | nil => rfl
      | cons c cs =>
        simp only [List.length_cons, Nat.succ_le_succ_iff] at hs
        rw [collapseNLF_cons]
        split_ifs with hcond
        · obtain ⟨hc, _, _⟩ := hcond
          refine nl3_cons2_nl
            (ih g (Nat.lt_succ_self g) _
              (le_trans (dropWhile_length_le _ cs) hs)) ?_
          rw [collapseNLF_head?]
          intro hx
          have h := dropWhile_head_false (fun d => d = '\n') cs '\n' hx
          simp at h
        · by_cases hc : c = '\n'
          · subst hc
            by_cases hch : cs.head? = some '\n'
            · cases cs with
              | nil => simp at hch
              | cons d cs2 =>
                have hd : d = '\n' := by simpa using hch
                subst hd
                have hd2 : ¬ cs2.head? = some '\n' := by
                  intro hx
                  exact hcond ⟨rfl, by simp, by simpa using hx⟩
                cases g with
                | zero => simp at hs
                | succ g2 =>
                  rw [collapseNLF_cons, if_neg (fun hx => hd2 hx.2.1)]
                  refine nl3_cons2_nl
                    (ih g2 (by omega) cs2 (by simpa using hs)) ?_
                  rw [collapseNLF_head?]
                  exact hd2
            · refine nl3_cons_nl (ih g (Nat.lt_succ_self g) cs hs) ?_
              rw [collapseNLF_head?]
              exact hch
          · exact nl3_cons_ne hc (ih g (Nat.lt_succ_self g) cs hs)

/-- The sanitizer's output never contains three consecutive newlines. -/
theorem sanitize_no_triple_aux (s : Str) :
    substrB nl3 (sanitize_response s) = false := by
  unfold sanitize_response
  set z := removeHRules (addPipeSpaces (removeLinks (removeItalic (removeBold
    (stripHeadings (removeTags (removeFences s))))))) with hz
  have hc : substrB nl3 (collapseNL z) = false :=
    collapseNLF_no_triple z.length z (le_refl _)
  obtain ⟨p, r, hpr⟩ := pyStrip_decomp (collapseNL z)
  cases hres : substrB nl3 (pyStrip (collapseNL z)) with
  | false => rfl
  | true =>
    exfalso
    have hmono := @substrB_mono nl3 (pyStrip (collapseNL z)) p r hres
    rw [← hpr] at hmono
    rw [hmono] at hc
    simp at hc

/-- C9 (amended): for every input the sanitizer's output contains no run
of three or more consecutive newline characters. -/
theorem sanitize_no_triple_newline (s : Str) :
    substrB nl3 (sanitize_response s) = false :=
  sanitize_no_triple_aux s

/-- A line starting with `#` exists (a markdown heading marker the claim
says cannot survive). -/
def hasHashLineStart (s : Str) : Bool :=
  (splitLines s).any (fun l => l.head? = some '#')

/-- An unresolved `[text](url)` pattern at the head of the string:
`[`, a nonempty run of non-`]`, `](`, a nonempty run of non-`)`, `)`. -/
def linkAtHead (s : Str) : Bool :=
  match s with
  | '[' :: cs =>
    let n := (cs.takeWhile (fun d => ¬ d = ']')).length
    if 0 < n ∧ (cs.drop n).head? = some ']' ∧ (cs.drop (n + 1)).head? = some '(' then
      let r2 := cs.drop (n + 2)
      let m := (r2.takeWhile (fun d => ¬ d = ')')).length
      decide (0 < m) && decide ((r2.drop m).head? = some ')')
    else false
  | _ => false

/-- An unresolved `[text](url)` markdown link pattern occurs somewhere. -/
def hasLinkPattern : Str → Bool
  | [] => false
  | s@(_ :: cs) => linkAtHead s || hasLinkPattern cs

/-- Counterexample to C9 as stated: a line starting with `#` survives
sanitization (input `"#######"`), and an unresolved `[text](url)`
pattern survives (input `"[[a](b)](c)"`, output `"[a](c)"`). -/
theorem sanitize_markdown_counterexample :
    sanitize_response ( "#######".data) = ( "#".data) ∧
    hasHashLineStart (sanitize_response ( "#######".data)) = true ∧
    sanitize_response ( "[[a](b)](c)".data) = ( "[a](c)".data) ∧
    hasLinkPattern (sanitize_response ( "[[a](b)](c)".data)) = true := by
  refine ⟨by decide, by decide, by decide, by decide⟩

/-- Counterexample to C2 as stated: sanitization doubles the spacing
around a table pipe on each application, so it is not idempotent. -/
theorem sanitize_not_idempotent :
    sanitize_response (sanitize_response ( "a|b".data)) = ( "a  |  b".data) ∧
    sanitize_response ( "a|b".data) = ( "a | b".data) ∧
    ¬ sanitize_response (sanitize_response ( "a|b".data))
        = sanitize_response ( "a|b".data) := by
  refine ⟨by decide, by decide, by decide⟩

/-! ## Identity of the structural passes on plain strings -/

/-- The characters some structural sanitizer pass reacts to. -/
def specialB (c : Char) : Bool :=
  c = '|' || c = '#' || c = '*' || c = '_' || c = '[' || c = '<' || c = '-' || c = '`'

/-- Strings free of every character a structural pass reacts to. -/
def plainP (s : Str) : Prop := ∀ c ∈ s, specialB c = false

theorem plainP_cons {c : Char} {cs : Str} (h : plainP (c :: cs)) :
    specialB c = false ∧ plainP cs :=
  ⟨h c (List.mem_cons_self c cs), fun d hd => h d (List.mem_cons_of_mem c hd)⟩

theorem plain_char_facts {c : Char} (h : specialB c = false) :
    ¬ c = '|' ∧ ¬ c = '#' ∧ ¬ c = '*' ∧ ¬ c = '_' ∧ ¬ c = '[' ∧ ¬ c = '<' ∧
      ¬ c = '-' ∧ ¬ c = '`' := by
  simp only [specialB, Bool.or_eq_false_iff, decide_eq_false_iff_not] at h
  exact ⟨h.1.1.1.1.1.1.1, h.1.1.1.1.1.1.2, h.1.1.1.1.1.2, h.1.1.1.1.2, h.1.1.1.2,
    h.1.1.2, h.1.2, h.2⟩

theorem findSub_ticks_none {s : Str} (h : plainP s) : findSub ticks s = none := by
  induction s with
  | nil => rfl
  | cons c cs ih =>
    obtain ⟨hc, hcs⟩ := plainP_cons h
    have ht : ¬ ('`' : Char) = c := fun hx => (plain_char_facts hc).2.2.2.2.2.2.2 hx.symm
    have hsw : startsWithB ticks (c :: cs) = false := by
      show (decide (('`' : Char) = c) && startsWithB [ '`', '`' ] cs) = false
      rw [decide_eq_false ht]
      rfl
    simp [findSub, hsw, ih hcs]

theorem removeFences_id {s : Str} (h : plainP s) : removeFences s = s := by
  unfold removeFences
  cases hf : s.length with
  | zero => rfl
  | succ g => simp [removeFencesF, findSub_ticks_none h]

theorem removeTagsF_id {s : Str} (h : plainP s) : ∀ f, removeTagsF f s = s := by
  induction s with
  | nil => intro f; cases f <;> rfl
  | cons c cs ih =>
    intro f
    cases f with
    | zero => rfl
    | succ g =>
      obtain ⟨hc, hcs⟩ := plainP_cons h
      have h1 : ¬ c = '<' := (plain_char_facts hc).2.2.2.2.2.1
      simp only [removeTagsF]
      rw [if_neg h1, ih hcs g]

theorem removeTags_id {s : Str} (h : plainP s) : removeTags s = s := removeTagsF_id h _

theorem stripHeadingsF_id {s : Str} (h : plainP s) : ∀ f b, stripHeadingsF f b s = s := by
  induction s with
  | nil => intro f b; cases f <;> rfl
  | cons c cs ih =>
    intro f b
    cases f with
    | zero => rfl
    | succ g =>
      obtain ⟨hc, hcs⟩ := plainP_cons h
      have h1 : ¬ c = '#' := (plain_char_facts hc).2.1
      simp only [stripHeadingsF]
      rw [if_neg (fun hx => h1 hx.2), ih hcs g]

theorem stripHeadings_id {s : Str} (h : plainP s) : stripHeadings s = s :=
  stripHeadingsF_id h _ _

theorem removeBoldF_id {s : Str} (h : plainP s) : ∀ f, removeBoldF f s = s := by
  induction s with
  | nil => intro f; cases f <;> rfl
  | cons c cs ih =>
    intro f
    cases f with
    | zero => rfl
    | succ g =>
      obtain ⟨hc, hcs⟩ := plainP_cons h
      have h1 : ¬ c = '*' := (plain_char_facts hc).2.2.1
      have h2 : ¬ c = '_' := (plain_char_facts hc).2.2.2.1
      simp only [removeBoldF]
      rw [if_neg (fun hx => hx.1.elim h1 h2), ih hcs g]

theorem removeBold_id {s : Str} (h : plainP s) : removeBold s = s := removeBoldF_id h _

theorem removeItalicF_id {s : Str} (h : plainP s) : ∀ f, removeItalicF f s = s := by
  induction s with
  | nil => intro f; cases f <;> rfl
  | cons c cs ih =>
    intro f
    cases f with
    | zero => rfl
    | succ g =>
      obtain ⟨hc, hcs⟩ := plainP_cons h
      have h1 : ¬ c = '*' := (plain_char_facts hc).2.2.1
      have h2 : ¬ c = '_' := (plain_char_facts hc).2.2.2.1
      simp only [removeItalicF]
      rw [if_neg (fun hx => hx.elim h1 h2), ih hcs g]

theorem removeItalic_id {s : Str} (h : plainP s) : removeItalic s = s := removeItalicF_id h _

theorem removeLinksF_id {s : Str} (h : plainP s) : ∀ f, removeLinksF f s = s := by
  induction s with
  | nil => intro f; cases f <;> rfl
  | cons c cs ih =>
    intro f
    cases f with
    | zero => rfl
    | succ g =>
      obtain ⟨hc, hcs⟩ := plainP_cons h
      have h1 : ¬ c = '[' := (plain_char_facts hc).2.2.2.2.1
      simp only [removeLinksF]
      rw [if_neg h1, ih hcs g]

theorem removeLinks_id {s : Str} (h : plainP s) : removeLinks s = s := removeLinksF_id h _

theorem addPipeSpaces_id {s : Str} (h : plainP s) : addPipeSpaces s = s := by
  induction s with
  | nil => rfl
  | cons c cs ih =>
    obtain ⟨hc, hcs⟩ := plainP_cons h
    have h1 : ¬ c = '|' := (plain_char_facts hc).1
    simp only [addPipeSpaces]
    rw [if_neg h1, ih hcs]

theorem splitLines_ne_nil : ∀ s : Str, ¬ splitLines s = [] := by
  intro s
  cases s with
  | nil => simp [splitLines]
  | cons c cs =>
    simp only [splitLines]
    split_ifs
    · simp
    · cases hsp : splitLines cs with
      | nil => simp
      | cons l ls => simp

theorem joinSep_splitLines : ∀ s : Str, joinSep [ '\n' ] (splitLines s) = s := by
  intro s
  induction s with
  | nil => rfl
  | cons c cs ih =>
    by_cases hc : c = '\n'
    · subst hc
      have e : splitLines ('\n' :: cs) = [] :: splitLines cs := by simp [splitLines]
      rw [e]
      cases hsp : splitLines cs with
      | nil => exact absurd hsp (splitLines_ne_nil cs)
      | cons l ls =>
        rw [hsp] at ih
        show [] ++ [ '\n' ] ++ joinSep [ '\n' ] (l :: ls) = '\n' :: cs
        simp [ih]
    · cases hsp : splitLines cs with
      | nil => exact absurd hsp (splitLines_ne_nil cs)
      | cons l ls =>
        have e : splitLines (c :: cs) = (c :: l) :: ls := by
          simp [splitLines, hc, hsp]
        rw [hsp] at ih
        rw [e]
        cases ls with
        | nil =>
          show c :: l = c :: cs
          have : l = cs := by simpa [joinSep] using ih
          rw [this]
        | cons m ms =>
          show (c :: l) ++ [ '\n' ] ++ joinSep [ '\n' ] (m :: ms) = c :: cs
          have ih2 : l ++ [ '\n' ] ++ joinSep [ '\n' ] (m :: ms) = cs := ih
          rw [← ih2]
          simp

theorem splitLines_mem_mem :
    ∀ (s l : Str), l ∈ splitLines s → ∀ c ∈ l, c ∈ s := by
  intro s
  induction s with
  | nil =>
    intro l hl c hc
    simp [splitLines] at hl
    subst hl
    simp at hc
  | cons d cs ih =>
    intro l hl c hc
    by_cases hd : d = '\n'
    · subst hd
      have e : splitLines ('\n' :: cs) = [] :: splitLines cs := by simp [splitLines]
      rw [e, List.mem_cons] at hl
      rcases hl with rfl | hl
      · simp at hc
      · exact List.mem_cons_of_mem _ (ih l hl c hc)
    · cases hsp : splitLines cs with
      | nil => exact absurd hsp (splitLines_ne_nil cs)
      | cons m ms =>
        have e : splitLines (d :: cs) = (d :: m) :: ms := by simp [splitLines, hd, hsp]
        rw [e, List.mem_cons] at hl
        rcases hl with rfl | hl
        · rcases List.mem_cons.mp hc with rfl | hc2
          · exact List.mem_cons_self c cs
          · exact List.mem_cons_of_mem _
              (ih m (by rw [hsp]; exact List.mem_cons_self m ms) c hc2)
        · exact List.mem_cons_of_mem _
            (ih l (by rw [hsp]; exact List.mem_cons_of_mem m hl) c hc)

theorem hruleLine_false {l : Str} (h : plainP l) : hruleLine l = false := by
  cases l with
  | nil => rfl
  | cons c cs =>
    obtain ⟨hc, _⟩ := plainP_cons h
    have hcd : ¬ c = '-' := (plain_char_facts hc).2.2.2.2.2.2.1
    have hall : (c :: cs).all (fun d => d = '-') = false := by
      simp [List.all_cons, hcd]
    simp [hruleLine, hall]

theorem removeHRules_id {s : Str} (h : plainP s) : removeHRules s = s := by
  unfold removeHRules
  have hmap : ∀ ls : List Str, (∀ l ∈ ls, hruleLine l = false) →
      ls.map (fun l => if hruleLine l then [] else l) = ls := by
    intro ls hls
    induction ls with
    | nil => rfl
    | cons a as iha =>
      simp only [List.map_cons, hls a (List.mem_cons_self a as), if_false,
        Bool.false_eq_true, iha (fun l hl => hls l (List.mem_cons_of_mem a hl))]
  rw [hmap (splitLines s)
    (fun l hl => hruleLine_false (fun c hc => h c (splitLines_mem_mem s l hl c hc)))]
  exact joinSep_splitLines s

theorem mem_dropWhile_sub (p : Char → Bool) :
    ∀ (l : Str) (c : Char), c ∈ l.dropWhile p → c ∈ l := by
  intro l
  induction l with
  | nil => intro c hc; simp [List.dropWhile] at hc
  | cons x xs ih =>
    intro c hc
    rw [List.dropWhile_cons] at hc
    by_cases hx : p x = true
    · rw [if_pos hx] at hc
      exact List.mem_cons_of_mem x (ih c hc)
    · rw [if_neg hx] at hc
      exact hc

theorem plainP_collapseNLF :
    ∀ (f : Nat) (s : Str), plainP s → plainP (collapseNLF f s) := by
  intro f
  induction f with
  | zero => exact fun s h => h
  | succ g ih =>
    intro s h
    cases s with
    | nil => exact h
    | cons c cs =>
      obtain ⟨hc, hcs⟩ := plainP_cons h
      rw [collapseNLF_cons]
      split_ifs with hcond
      · intro d hd
        rcases List.mem_cons.mp hd with rfl | hd2
        · decide
        rcases List.mem_cons.mp hd2 with rfl | hd3
        · decide
        exact ih (cs.dropWhile (fun x => x = '
'))
          (fun e he => hcs e (mem_dropWhile_sub _ cs e he)) d hd3
      · intro d hd
        rcases List.mem_cons.mp hd with rfl | hd2
        · exact hc
        exact ih cs hcs d hd2

theorem mem_pyStrip_sub {s : Str} {c : Char} (h : c ∈ pyStrip s) : c ∈ s := by
  obtain ⟨p, r, hpr⟩ := pyStrip_decomp s
  rw [hpr]
  simp [h]

theorem plainP_pyStrip {s : Str} (h : plainP s) : plainP (pyStrip s) :=
  fun c hc => h c (mem_pyStrip_sub hc)

theorem collapseNLF_id_of_no_triple {s : Str} (h : substrB nl3 s = false) :
    ∀ f, collapseNLF f s = s := by
  induction s with
  | nil => intro f; cases f <;> rfl
  | cons c cs ih =>
    intro f
    cases f with
    | zero => rfl
    | succ g =>
      rw [collapseNLF_cons]
      rw [if_neg ?hcond, ih (substrB_cons_false h) g]
      case hcond =>
        rintro ⟨rfl, h1, h2⟩
        cases cs with
        | nil => simp at h1
        | cons d cs2 =>
          have hd : d = '\n' := by simpa using h1
          subst hd
          cases cs2 with
          | nil => simp at h2
          | cons e2 cs3 =>
            have he : e2 = '\n' := by simpa using h2
            subst he
            have hsw : startsWithB nl3 ('\n' :: '\n' :: '\n' :: cs3) = true := by
              show (decide (('\n' : Char) = '\n') && (decide (('\n' : Char) = '\n')
                && (decide (('\n' : Char) = '\n') && startsWithB [] cs3))) = true
              simp [startsWithB]
            have : substrB nl3 ('\n' :: '\n' :: '\n' :: cs3) = true := by
              show (startsWithB nl3 ('\n' :: '\n' :: '\n' :: cs3)
                || substrB nl3 ('\n' :: '\n' :: cs3)) = true
              simp [hsw]
            rw [this] at h
            simp at h

theorem dropWhile_dropWhile (p : Char → Bool) (l : Str) :
    List.dropWhile p (List.dropWhile p l) = List.dropWhile p l := by
  cases hl : List.dropWhile p l with
  | nil => rfl
  | cons a as =>
    have ha : p a = false := dropWhile_head_false p l a (by rw [hl]; rfl)
    rw [List.dropWhile_cons, if_neg (by simp [ha])]

theorem pyStrip_idem (s : Str) : pyStrip (pyStrip s) = pyStrip s := by
  unfold pyStrip
  set u := s.dropWhile isPyWs with hu
  set v := u.reverse.dropWhile isPyWs with hv
  have h1 : v.reverse.dropWhile isPyWs = v.reverse := by
    cases hvr : v.reverse with
    | nil => rfl
    | cons b bs =>
      have hule : u = v.reverse ++ (u.reverse.takeWhile isPyWs).reverse := by
        have h2 := List.takeWhile_append_dropWhile isPyWs u.reverse
        have h3 := congrArg List.reverse h2
        rw [List.reverse_append, List.reverse_reverse, ← hv] at h3
        exact h3.symm
      have hbu : u.head? = some b := by
        rw [hule, hvr]
        simp
      have hpb : isPyWs b = false := by
        cases hu2 : u with
        | nil => rw [hu2] at hbu; simp at hbu
        | cons x xs =>
          have hx : isPyWs x = false :=
            dropWhile_head_false isPyWs s x (by rw [← hu, hu2]; rfl)
          rw [hu2] at hbu
          simp only [List.head?_cons, Option.some.injEq] at hbu
          rwa [← hbu]
      rw [List.dropWhile_cons, if_neg (by simp [hpb])]
  rw [h1, List.reverse_reverse, hv, dropWhile_dropWhile]

/-- C2 (amended): on strings containing none of the characters the
structural passes react to, the sanitizer reduces to newline collapsing
plus trimming, and is idempotent. -/
theorem sanitize_idempotent_on_plain {s : Str} (h : plainP s) :
    sanitize_response (sanitize_response s) = sanitize_response s := by
  have hred : ∀ t : Str, plainP t → sanitize_response t = pyStrip (collapseNL t) := by
    intro t ht
    unfold sanitize_response
    rw [removeFences_id ht, removeTags_id ht, stripHeadings_id ht, removeBold_id ht,
      removeItalic_id ht, removeLinks_id ht, addPipeSpaces_id ht, removeHRules_id ht]
  have hs1 := hred s h
  have hplain1 : plainP (sanitize_response s) := by
    rw [hs1]
    exact plainP_pyStrip (plainP_collapseNLF _ _ h)
  have hnt : substrB nl3 (sanitize_response s) = false := sanitize_no_triple_aux s
  rw [hred (sanitize_response s) hplain1]
  rw [show collapseNL (sanitize_response s) = sanitize_response s from
    collapseNLF_id_of_no_triple hnt _]
  rw [hs1, pyStrip_idem]

/-- Witness for C2's amended statement at a concrete plain string. -/
theorem sanitize_idempotent_on_plain_witness :
    plainP ( "hello\n\n\n\nworld? ok.".data) ∧
    sanitize_response (sanitize_response ( "hello\n\n\n\nworld? ok.".data))
      = sanitize_response ( "hello\n\n\n\nworld? ok.".data) :=
  ⟨by unfold plainP; decide, sanitize_idempotent_on_plain (by unfold plainP; decide)⟩
